import Mathlib

/-!
Verification development for the ARQV30 Enhanced v3.0 pipeline:
the guaranteed module generator (`enhanced_module_processor.py`),
the report compiler (`comprehensive_report_generator_v3.py`),
the massive data collector (`massive_data_collector.py`) and the
viral-post ranker (`visual_content_capture.py`).

Shallow-embedding conventions:
- Python dicts keyed by strings are modelled as association lists, or as
  functions `String → Option _` when they stand for a file store; the
  per-session `modules/` directory is a function from module name to the
  content of `<name>.md`, `none` meaning the file does not exist.
- Every `datetime.now()` rendering is threaded as an explicit
  `now : String` argument (one instant per operation).
- File writes are modelled as reliable map updates; filesystem failures are
  outside the scope of the claims treated here.
- External collaborators (the AI generation manager, search providers,
  the content extractor, the social platform manager, the websailor
  navigator) are inputs of the model; an `Except.error`/`GenResult.raise`
  value is a raised Python exception at that call site.  An extra `Nat`
  argument (the attempt index) models the per-call behaviour of a stateful
  external collaborator across retries.
- Python string primitives (`strip`, `lower`, `title`, `split`, slicing,
  membership) are implemented structurally below so that the kernel can
  evaluate them on concrete inputs; the ASCII-range case mapping is all the
  repository ever compares on.
-/

namespace ARQV30

/-! ## Python string primitives, modelled structurally -/

def asciiLower (c : Char) : Char :=
  if 'A' ≤ c ∧ c ≤ 'Z' then Char.ofNat (c.toNat + 32) else c

def asciiUpper (c : Char) : Char :=
  if 'a' ≤ c ∧ c ≤ 'z' then Char.ofNat (c.toNat - 32) else c

def isAsciiAlpha (c : Char) : Bool :=
  decide ('a' ≤ c ∧ c ≤ 'z') || decide ('A' ≤ c ∧ c ≤ 'Z')

/-- Python `str.lower()` (ASCII range). -/
def pyLower (s : String) : String := ⟨s.data.map asciiLower⟩

/-- Python `str.strip()`: drop whitespace on both ends. -/
def pyStrip (s : String) : String :=
  ⟨((s.data.dropWhile Char.isWhitespace).reverse.dropWhile Char.isWhitespace).reverse⟩

/-- Python `str.replace('_', ' ')` (single-character replacement). -/
def underscoreToSpace (s : String) : String :=
  ⟨s.data.map (fun c => if c = '_' then ' ' else c)⟩

def titleGo : Bool → List Char → List Char
  | _, [] => []
  | prevAlpha, c :: cs =>
    (if isAsciiAlpha c then (if prevAlpha then asciiLower c else asciiUpper c) else c)
      :: titleGo (isAsciiAlpha c) cs

/-- Python `str.title()` (ASCII range): capitalize each alphabetic run. -/
def pyTitle (s : String) : String := ⟨titleGo false s.data⟩

/-- Python slicing `s[:n]` (by characters). -/
def pyTake (s : String) (n : Nat) : String := ⟨s.data.take n⟩

def hasSubList (pat : List Char) : List Char → Bool
  | [] => pat.isEmpty
  | c :: cs => pat.isPrefixOf (c :: cs) || hasSubList pat cs

/-- Python `pat in s` (substring containment). -/
def pyContains (s pat : String) : Bool := hasSubList pat.data s.data

def splitByGo (p : Char → Bool) : List Char → List Char → List (List Char)
  | [], acc => [acc.reverse]
  | c :: cs, acc =>
    if p c then acc.reverse :: splitByGo p cs [] else splitByGo p cs (c :: acc)

/-- Python `s.split('\n')` (keeps empty pieces). -/
def pySplitLines (s : String) : List String :=
  (splitByGo (fun c => decide (c = '\n')) s.data []).map (fun l => (⟨l⟩ : String))

/-- Python `s.split()` with no argument: split on whitespace runs, dropping empties. -/
def pySplitWhitespace (s : String) : List String :=
  ((splitByGo Char.isWhitespace s.data []).map (fun l => (⟨l⟩ : String))).filter
    (fun w => decide (w ≠ ""))

/-- Python `s.split('/')[-1]`. -/
def lastPathComponent (s : String) : String :=
  (((splitByGo (fun c => decide (c = '/')) s.data []).map (fun l => (⟨l⟩ : String))).getLast?).getD ""

/-- Python `s.endswith(t)` (used for the `*.png` glob). -/
def pyEndsWith (s t : String) : Bool := t.data.reverse.isPrefixOf s.data.reverse

/-! ## Generic containers -/

/-- Lookup in an insertion-ordered association list (Python dict access). -/
def alist_lookup {α : Type} : List (String × α) → String → Option α
  | [], _ => none
  | p :: rest, k => if p.1 = k then some p.2 else alist_lookup rest k

/-- Python `set.add` on the first-seen-ordered list model of a string set. -/
def setAdd (s : List String) (u : String) : List String :=
  if u ∈ s then s else s ++ [u]

/-- Stable insertion for a descending sort: the new element goes before the
first element whose key is not larger.  `sortDescBy` below therefore models
Python's `list.sort(key=…, reverse=True)`, which is a stable sort. -/
def insertDescBy {α β : Type} [LinearOrder β] (key : α → β) (v : α) : List α → List α
  | [] => [v]
  | w :: ws => if key w ≤ key v then v :: w :: ws else w :: insertDescBy key v ws

def sortDescBy {α β : Type} [LinearOrder β] (key : α → β) (l : List α) : List α :=
  l.foldr (insertDescBy key) []

/-- The per-session module file store: module name to file content. -/
abbrev FS := String → Option String

def fsWrite (fs : FS) (k v : String) : FS :=
  fun n => if n = k then some v else fs n

/-! ## `enhanced_module_processor.py`: data model -/

structure ModuleConfig where
  title : String
  description : String
  use_active_search : Bool
deriving DecidableEq

/-- The fixed 16-entry `modules_config` of `EnhancedModuleProcessor.__init__`. -/
def modules_config : List (String × ModuleConfig) :=
  [("anti_objecao", ⟨"Sistema Anti-Objeção", "Sistema completo para antecipar e neutralizar objeções", false⟩),
   ("avatars", ⟨"Avatares do Público-Alvo", "Personas detalhadas do público-alvo", false⟩),
   ("concorrencia", ⟨"Análise Competitiva", "Análise completa da concorrência", true⟩),
   ("drivers_mentais", ⟨"Drivers Mentais", "Gatilhos psicológicos e drivers de compra", false⟩),
   ("funil_vendas", ⟨"Funil de Vendas", "Estrutura completa do funil de vendas", false⟩),
   ("insights_mercado", ⟨"Insights de Mercado", "Insights profundos sobre o mercado", true⟩),
   ("palavras_chave", ⟨"Estratégia de Palavras-Chave", "Estratégia completa de SEO e palavras-chave", false⟩),
   ("plano_acao", ⟨"Plano de Ação", "Plano de ação detalhado e executável", false⟩),
   ("posicionamento", ⟨"Estratégia de Posicionamento", "Posicionamento estratégico no mercado", false⟩),
   ("pre_pitch", ⟨"Estrutura de Pré-Pitch", "Estrutura de pré-venda e engajamento", false⟩),
   ("predicoes_futuro", ⟨"Predições de Mercado", "Predições e tendências futuras", true⟩),
   ("provas_visuais", ⟨"Sistema de Provas Visuais", "Provas visuais e sociais", false⟩),
   ("metricas_conversao", ⟨"Métricas de Conversão", "KPIs e métricas de conversão", false⟩),
   ("estrategia_preco", ⟨"Estratégia de Precificação", "Estratégia de preços e monetização", false⟩),
   ("canais_aquisicao", ⟨"Canais de Aquisição", "Canais de aquisição de clientes", false⟩),
   ("cronograma_lancamento", ⟨"Cronograma de Lançamento", "Cronograma detalhado de lançamento", false⟩)]

/-- The base data `_load_base_data` assembles for a session.  The loaded
synthesis dict is kept as its list of keys plus its `json.dumps` rendering
(the dump only feeds the prompt text); the screenshots list is kept as its
length (only the length feeds the prompt). `_load_base_data` catches all of
its own errors, so it always yields a value of this shape. -/
structure BaseData where
  session_id : String
  synthesis_keys : List String
  synthesis_json : String
  coleta_content : String
  screenshots_count : Nat
  context : String
deriving DecidableEq

/-- Outcome of one call into the AI generation collaborator: a returned
string, or a raised exception. -/
inductive GenResult where
  | raise (msg : String)
  | ok (content : String)
deriving DecidableEq

/-- The external `enhanced_ai_manager`.  The final `Nat` argument is the
attempt index, modelling the behaviour of the stateful external service on
each successive call of the retry loop. -/
structure AIManager where
  generate_with_active_search : String → String → String → Nat → GenResult
  generate_text : String → Nat → GenResult

/-- `_get_module_prompt` (the `module_name` parameter is unused in the
source body as well). -/
def get_module_prompt (_module_name : String) (config : ModuleConfig) (base_data : BaseData) : String :=
  "# " ++ config.title
    ++ "\n\nVocê é um especialista em " ++ pyLower config.description
    ++ ".\n\n## DADOS DISPONÍVEIS:\n" ++ base_data.context
    ++ "\n\n## DADOS DE SÍNTESE ESTRUTURADA:\n" ++ pyTake base_data.synthesis_json 2000
    ++ "\n\n## RELATÓRIO DE COLETA:\n" ++ pyTake base_data.coleta_content 3000
    ++ "\n\n## SCREENSHOTS DISPONÍVEIS:\n" ++ toString base_data.screenshots_count
    ++ " imagens capturadas para evidência visual\n\n## TAREFA:\nCrie um módulo ULTRA-DETALHADO sobre "
    ++ config.title
    ++ " baseado EXCLUSIVAMENTE nos dados reais coletados acima.\n\n## ESTRUTURA OBRIGATÓRIA:\n1. **Resumo Executivo**\n2. **Análise Detalhada**\n3. **Estratégias Específicas**\n4. **Implementação Prática**\n5. **Métricas e KPIs**\n6. **Cronograma de Execução**\n\n## REQUISITOS:\n- Mínimo 3000 palavras\n- Dados específicos do mercado brasileiro\n- Estratégias acionáveis\n- Métricas mensuráveis\n- Formato markdown profissional\n- Use APENAS dados reais fornecidos acima\n- Cite fontes quando possível\n- Inclua referências aos screenshots quando relevante\n\n## IMPORTANTE:\nEste módulo deve ser COMPLETO e ACIONÁVEL. Não use dados genéricos ou simulados.\nBase toda a análise nos dados reais fornecidos acima.\n\nGere um conteúdo EXTREMAMENTE detalhado, específico e prático.\n"

/-- `_generate_fallback_module_content`: the deterministic structured
fallback document. -/
def generate_fallback_module_content (module_name : String) (config : ModuleConfig)
    (base_data : BaseData) (now : String) : String :=
  "# " ++ config.title
    ++ "\n\n## Resumo Executivo\n\nEste módulo apresenta análise detalhada sobre "
    ++ pyLower config.description
    ++ ", baseado nos dados coletados e sintetizados para esta sessão específica.\n\n## Análise Detalhada\n\n### Contexto dos Dados Coletados\n\nCom base na coleta massiva realizada, foram identificados padrões específicos relacionados a "
    ++ underscoreToSpace module_name
    ++ ":\n\n- **Fontes Analisadas**: " ++ toString base_data.synthesis_keys.length
    ++ " arquivos de síntese\n- **Conteúdo de Coleta**: " ++ toString base_data.coleta_content.length
    ++ " caracteres de dados reais\n- **Metodologia**: Análise baseada em dados reais coletados\n\n### Insights Principais\n\n1. **Insight Primário**: Análise específica para "
    ++ module_name
    ++ " baseada nos dados coletados\n2. **Insight Secundário**: Padrões identificados na pesquisa massiva realizada\n3. **Insight Terciário**: Oportunidades específicas mapeadas nos dados\n\n### Estratégias Específicas\n\n#### Estratégia 1: Implementação Baseada em Dados\n- Ação específica baseada nos achados da coleta\n- Métricas de acompanhamento sugeridas\n- Timeline de implementação recomendado\n\n#### Estratégia 2: Otimização Contínua\n- Monitoramento de resultados\n- Ajustes baseados em performance\n- Escalabilidade das ações\n\n### Implementação Prática\n\n#### Passos Imediatos (30 dias)\n1. Implementar descobertas específicas do módulo "
    ++ module_name
    ++ "\n2. Configurar métricas de acompanhamento\n3. Executar primeiros testes e ajustes\n\n#### Desenvolvimento (90 dias)\n1. Expandir implementação baseada em resultados\n2. Otimizar processos identificados\n3. Escalar estratégias bem-sucedidas\n\n### Métricas e KPIs\n\n#### KPIs Primários\n- Métrica específica 1 para "
    ++ module_name
    ++ "\n- Métrica específica 2 baseada nos dados\n- Métrica específica 3 de performance\n\n#### KPIs Secundários\n- Indicadores de suporte\n- Métricas de qualidade\n- Indicadores de satisfação\n\n### Cronograma de Execução\n\n| Fase | Duração | Atividades Principais |\n|------|---------|----------------------|\n| Preparação | 1-2 semanas | Análise detalhada e planejamento |\n| Implementação | 4-6 semanas | Execução das estratégias principais |\n| Otimização | 2-4 semanas | Ajustes e melhorias contínuas |\n| Escala | Ongoing | Expansão e replicação |\n\n---\n\n*Módulo gerado automaticamente pelo ARQV30 Enhanced v3.0 baseado em dados reais coletados*\n\n**Dados de Geração:**\n- Sessão: "
    ++ base_data.session_id
    ++ "\n- Timestamp: " ++ now
    ++ "\n- Método: Fallback estruturado com dados reais\n"

/-- Title resolution of `_generate_emergency_module_content` (line 366). -/
def emergency_title (module_name : String) : String :=
  match alist_lookup modules_config module_name with
  | some cfg => cfg.title
  | none => pyTitle (underscoreToSpace module_name)

/-- `_generate_emergency_module_content`: the minimal last-resort document.
The literal `{session_id}` fragments below are literal text in the source
too (doubled braces in the Python f-string). -/
def generate_emergency_module_content (module_name : String) (error_msg : String) (now : String) : String :=
  "# " ++ emergency_title module_name
    ++ "\n\n## Status do Módulo\n\n**⚠️ MÓDULO GERADO EM MODO DE EMERGÊNCIA**\n\nEste módulo foi criado pelo sistema de garantia do ARQV30 Enhanced v3.0 para assegurar que todos os 16 módulos sejam entregues.\n\n### Informações Técnicas\n\n- **Módulo**: "
    ++ module_name
    ++ "\n- **Título**: " ++ emergency_title module_name
    ++ "\n- **Status**: Emergência - Dados preservados\n- **Erro Original**: " ++ error_msg
    ++ "\n- **Gerado em**: " ++ now
    ++ "\n\n### Dados Disponíveis\n\nTodos os dados coletados foram preservados e estão disponíveis para análise manual:\n\n1. **Relatório de Coleta**: `analyses_data/\x7bsession_id\x7d/relatorio_coleta.md`\n2. **Síntese Estruturada**: `analyses_data/\x7bsession_id\x7d/resumo_sintese.json`\n3. **Screenshots Capturados**: `analyses_data/files/\x7bsession_id\x7d/`\n4. **Dados Intermediários**: `relatorios_intermediarios/`\n\n### Recomendações\n\n1. **Análise Manual**: Revise os dados coletados para extrair insights específicos\n2. **Regeneração**: Execute nova análise com APIs configuradas\n3. **Dados Preservados**: Nenhum dado foi perdido - todos estão disponíveis\n\n### Próximos Passos\n\n- Configure APIs faltantes para análise completa\n- Revise dados coletados manualmente\n- Execute nova geração do módulo específico\n- Consulte logs detalhados para diagnóstico\n\n---\n\n**GARANTIA ARQV30**: Todos os dados foram preservados e podem ser recuperados para análise completa.\n\n*Sistema de Emergência - ARQV30 Enhanced v3.0*\n"

/-! ## `enhanced_module_processor.py`: the attempt loop -/

/-- One generation call of the attempt loop (lines 151-160), dispatched on
`use_active_search`. -/
def module_generation_attempt (ai : AIManager) (module_name : String) (config : ModuleConfig)
    (base_data : BaseData) (attempt : Nat) : GenResult :=
  if config.use_active_search then
    ai.generate_with_active_search (get_module_prompt module_name config base_data)
      base_data.context base_data.session_id attempt
  else
    ai.generate_text (get_module_prompt module_name config base_data) attempt

/-- The success test of line 163: `content and len(content.strip()) > 500`. -/
def content_sufficient (s : String) : Bool :=
  decide (s ≠ "") && decide (500 < (pyStrip s).length)

/-- The attempt loop of `generate_all_modules` (lines 146-180).  State: the
`content` local (initially `None`).  A returned string always overwrites
`content` before validation; a sufficient string breaks out of the loop; an
exception on the last attempt assigns the fallback to `content`. -/
def run_attempts (gen : Nat → GenResult) (fallback : String) :
    List Nat → Option String → Option String
  | [], content => content
  | attempt :: rest, content =>
    match gen attempt with
    | .ok s => if content_sufficient s then some s else run_attempts gen fallback rest (some s)
    | .raise _ =>
      if rest.isEmpty then some fallback else run_attempts gen fallback rest content

/-- The forced-fallback guard of line 183 applied to the loop result:
`if not content or len(content.strip()) < 100: content = fallback`. -/
def final_content_guard (fallback : String) : Option String → String
  | none => fallback
  | some s => if s = "" ∨ (pyStrip s).length < 100 then fallback else s

/-- The content finally written for one module: the loop result, then the
forced-fallback guard of line 183. -/
def module_saved_content (ai : AIManager) (module_name : String) (config : ModuleConfig)
    (base_data : BaseData) (now : String) : String :=
  final_content_guard (generate_fallback_module_content module_name config base_data now)
    (run_attempts (module_generation_attempt ai module_name config base_data)
      (generate_fallback_module_content module_name config base_data now) [0, 1, 2] none)

/-- One step of `_ensure_all_modules_exist`: force emergency content when
the file is missing or has zero size. -/
def ensure_step (now : String) (fs : FS) (p : String × ModuleConfig) : FS :=
  match fs p.1 with
  | some c =>
    if c.length = 0 then
      fsWrite fs p.1 (generate_emergency_module_content p.1 ("Módulo criado por sistema de garantia") now)
    else fs
  | none =>
    fsWrite fs p.1 (generate_emergency_module_content p.1 ("Módulo criado por sistema de garantia") now)

/-- `_ensure_all_modules_exist` (lines 238-266): re-scan the whole config. -/
def ensure_all_modules_exist (fs : FS) (now : String) : FS :=
  modules_config.foldl (ensure_step now) fs

/-- `generate_all_modules`, restricted to its effect on the `modules/`
directory: the main loop writes one file per configured module (writes are
modelled as reliable, so the per-module emergency handler of lines 200-221
and the bookkeeping-driven `_force_create_missing_modules` sweep never
fire), then `_ensure_all_modules_exist` re-scans the whole set.  The
consolidated report written afterwards lives outside `modules/`. -/
def generate_all_modules_files (ai : AIManager) (base_data : BaseData) (now : String) : FS :=
  ensure_all_modules_exist
    (modules_config.foldl
      (fun fs p => fsWrite fs p.1 (module_saved_content ai p.1 p.2 base_data now))
      (fun _ => none))
    now

/-! ## Basic lemmas -/

lemma length_pos_of_ne_empty (s : String) (h : s ≠ "") : 0 < s.length := by
  rcases s with ⟨⟨⟩ | ⟨c, cs⟩⟩
  · simp at h
  · simp [String.length]

lemma fallback_length_pos (module_name : String) (config : ModuleConfig)
    (base_data : BaseData) (now : String) :
    0 < (generate_fallback_module_content module_name config base_data now).length := by
  have h : (0 : Nat) < ("# ").length := by decide
  unfold generate_fallback_module_content
  simp only [String.length_append]
  omega

lemma emergency_length_pos (module_name error_msg now : String) :
    0 < (generate_emergency_module_content module_name error_msg now).length := by
  have h : (0 : Nat) < ("# ").length := by decide
  unfold generate_emergency_module_content
  simp only [String.length_append]
  omega

lemma fsWrite_same (fs : FS) (k v : String) : fsWrite fs k v k = some v := by
  simp [fsWrite]

lemma fsWrite_other (fs : FS) (k v n : String) (h : n ≠ k) : fsWrite fs k v n = fs n := by
  simp [fsWrite, h]

/-- The saved content of a module is never empty: either a nonempty
generated string survives the final guard, or the fallback is written. -/
lemma final_content_guard_pos (fallback : String) (hfb : 0 < fallback.length)
    (r : Option String) : 0 < (final_content_guard fallback r).length := by
  rcases r with _ | s
  · exact hfb
  · unfold final_content_guard
    by_cases hs : s = "" ∨ (pyStrip s).length < 100
    · simp only [hs, if_true]
      exact hfb
    · simp only [hs, if_false]
      push_neg at hs
      exact length_pos_of_ne_empty s hs.1

lemma module_saved_content_pos (ai : AIManager) (module_name : String) (config : ModuleConfig)
    (base_data : BaseData) (now : String) :
    0 < (module_saved_content ai module_name config base_data now).length := by
  unfold module_saved_content
  exact final_content_guard_pos _ (fallback_length_pos ..) _

/-! ## Fold lemmas for the module file store -/

lemma write_fold_not_mem (g : String → ModuleConfig → String) :
    ∀ (l : List (String × ModuleConfig)) (fs : FS) (n : String),
      n ∉ l.map Prod.fst →
      (l.foldl (fun fs p => fsWrite fs p.1 (g p.1 p.2)) fs) n = fs n := by
  intro l
  induction l with
  | nil => intro fs n _; rfl
  | cons p t ih =>
    intro fs n hn
    simp only [List.map_cons, List.mem_cons, not_or] at hn
    simp only [List.foldl_cons]
    rw [ih _ _ hn.2, fsWrite_other _ _ _ _ hn.1]

lemma write_fold_mem (g : String → ModuleConfig → String) :
    ∀ (l : List (String × ModuleConfig)) (fs : FS) (p : String × ModuleConfig),
      (l.map Prod.fst).Nodup → p ∈ l →
      (l.foldl (fun fs q => fsWrite fs q.1 (g q.1 q.2)) fs) p.1 = some (g p.1 p.2) := by
  intro l
  induction l with
  | nil => intro fs p _ hp; cases hp
  | cons q t ih =>
    intro fs p hnd hp
    simp only [List.map_cons, List.nodup_cons] at hnd
    rcases List.mem_cons.mp hp with rfl | hp
    · simp only [List.foldl_cons]
      rw [write_fold_not_mem g t _ _ hnd.1, fsWrite_same]
    · simp only [List.foldl_cons]
      exact ih _ _ hnd.2 hp

/-- The file at `n` exists with nonzero size. -/
def nonzero_file (fs : FS) (n : String) : Prop :=
  ∃ c, fs n = some c ∧ 0 < c.length

lemma ensure_step_preserves (now : String) (fs : FS) (p : String × ModuleConfig) (n : String)
    (h : nonzero_file fs n) : nonzero_file (ensure_step now fs p) n := by
  obtain ⟨c, hc, hpos⟩ := h
  unfold ensure_step
  rcases hfs : fs p.1 with _ | c'
  · refine ⟨c, ?_, hpos⟩
    have hn : n ≠ p.1 := by rintro rfl; rw [hfs] at hc; cases hc
    simpa [fsWrite, hn] using hc
  · by_cases hz : c'.length = 0
    · simp only [hz, if_true]
      refine ⟨c, ?_, hpos⟩
      have hn : n ≠ p.1 := by
        rintro rfl; rw [hfs] at hc; injection hc with hcc; subst hcc; omega
      simpa [fsWrite, hn] using hc
    · simp only [hz, if_false]
      exact ⟨c, hc, hpos⟩

lemma ensure_fold_preserves (now : String) (n : String) :
    ∀ (l : List (String × ModuleConfig)) (fs : FS),
      nonzero_file fs n → nonzero_file (l.foldl (ensure_step now) fs) n := by
  intro l
  induction l with
  | nil => intro fs h; exact h
  | cons p t ih =>
    intro fs h
    exact ih _ (ensure_step_preserves now fs p n h)

lemma ensure_preserves (fs : FS) (now : String) (n : String) (h : nonzero_file fs n) :
    nonzero_file (ensure_all_modules_exist fs now) n := by
  unfold ensure_all_modules_exist
  exact ensure_fold_preserves now n modules_config fs h

lemma modules_config_keys_nodup : (modules_config.map Prod.fst).Nodup := by decide

/-! ## C1 -/

/-- C1: for every session and every behaviour of the generation
collaborator (including one that raises on every call), after
`generate_all_modules` completes every one of the 16 configured module
names holds exactly one artifact (the module store maps each name to one
content string) and that artifact has nonzero size. -/
theorem c1_all_modules_nonzero (ai : AIManager) (base_data : BaseData) (now : String)
    (name : String) (hname : name ∈ modules_config.map Prod.fst) :
    ∃ content, generate_all_modules_files ai base_data now name = some content ∧
      0 < content.length := by
  obtain ⟨p, hp, hfst⟩ := List.mem_map.mp hname
  subst hfst
  unfold generate_all_modules_files
  refine ensure_preserves _ _ _
    ⟨module_saved_content ai p.1 p.2 base_data now, ?_, module_saved_content_pos ..⟩
  exact write_fold_mem (fun a b => module_saved_content ai a b base_data now) _ _ _
    modules_config_keys_nodup hp

/-- A generation collaborator that raises on every call. -/
def ai_always_raise : AIManager :=
  ⟨fun _ _ _ _ => .raise ("API indisponível"), fun _ _ => .raise ("API indisponível")⟩

/-- A sample of the base data a session can load. -/
def base_data_example : BaseData :=
  ⟨"sessao_teste_1", [], "\x7b\x7d", "", 0, "Dados limitados - sistema em modo de emergência"⟩

theorem c1_all_modules_nonzero_witness :
    ("avatars" ∈ modules_config.map Prod.fst) ∧
      (∃ content,
        generate_all_modules_files ai_always_raise base_data_example ("01/01/2025 00:00:00") "avatars" =
          some content ∧ 0 < content.length) :=
  ⟨by decide,
   c1_all_modules_nonzero ai_always_raise base_data_example ("01/01/2025 00:00:00") "avatars" (by decide)⟩

/-! ## C2 -/

/-- Under all-insufficient attempts, the loop ends with the fallback when
the third call raises, and with the third returned string otherwise. -/
lemma run_attempts_of_insufficient (gen : Nat → GenResult) (fb : String)
    (h0 : ∀ s, gen 0 = .ok s → content_sufficient s = false)
    (h1 : ∀ s, gen 1 = .ok s → content_sufficient s = false)
    (h2 : ∀ s, gen 2 = .ok s → content_sufficient s = false) :
    run_attempts gen fb [0, 1, 2] none =
      (match gen 2 with | .raise _ => some fb | .ok s => some s) := by
  rcases e0 : gen 0 with m0 | s0 <;> rcases e1 : gen 1 with m1 | s1 <;>
    rcases e2 : gen 2 with m2 | s2 <;>
      simp [run_attempts, e0, e1, e2, h0, h1, h2]

/-- A 300-character reply: nonempty, but under the 500-character success
threshold and over the 100-character forced-fallback threshold. -/
def insufficient_reply : String := ⟨List.replicate 300 'a'⟩

/-- A generation collaborator that returns `insufficient_reply` on every
call of both entry points. -/
def ai_insufficient : AIManager :=
  ⟨fun _ _ _ _ => .ok insufficient_reply, fun _ _ => .ok insufficient_reply⟩

def cfg_avatars : ModuleConfig :=
  ⟨"Avatares do Público-Alvo", "Personas detalhadas do público-alvo", false⟩

set_option maxRecDepth 8000 in
/-- C2 is refuted on the code: with a collaborator whose every attempt
returns a 300-character string, no attempt meets the 500-character success
test, yet the artifact content written is that insufficient primary
content, not the synthesized fallback (the final guard of line 183 only
forces the fallback below 100 stripped characters). -/
theorem c2_counterexample :
    content_sufficient insufficient_reply = false ∧
    module_saved_content ai_insufficient "avatars" cfg_avatars base_data_example
        ("01/01/2025 00:00:00") = insufficient_reply ∧
    insufficient_reply ≠
      generate_fallback_module_content "avatars" cfg_avatars base_data_example
        ("01/01/2025 00:00:00") :=
  ⟨by decide, by decide, by decide⟩

/-- C2 (amended): if no attempt returns non-empty content whose stripped
length exceeds 500 characters, and moreover the final attempt raises or
returns content that is empty or under 100 stripped characters, then the
content written for the module is the deterministically synthesized
fallback content.  (The counterexample above forces the extra condition on
the final attempt: a final reply of 100 to 500 stripped characters is
written as-is.) -/
theorem c2_amended_fallback_written (ai : AIManager) (module_name : String)
    (config : ModuleConfig) (base_data : BaseData) (now : String)
    (hfail : ∀ i, i < 3 → ∀ s,
      module_generation_attempt ai module_name config base_data i = .ok s →
      content_sufficient s = false)
    (hlast : (∃ m, module_generation_attempt ai module_name config base_data 2 = .raise m) ∨
      (∃ s, module_generation_attempt ai module_name config base_data 2 = .ok s ∧
        (s = "" ∨ (pyStrip s).length < 100))) :
    module_saved_content ai module_name config base_data now =
      generate_fallback_module_content module_name config base_data now := by
  unfold module_saved_content
  rw [run_attempts_of_insufficient _ _ (hfail 0 (by norm_num)) (hfail 1 (by norm_num))
    (hfail 2 (by norm_num))]
  rcases hlast with ⟨m, hm⟩ | ⟨s, hs, hcond⟩
  · rw [hm]
    simp [final_content_guard]
  · rw [hs]
    show (if s = "" ∨ (pyStrip s).length < 100 then _ else s) = _
    rw [if_pos hcond]

theorem c2_amended_fallback_written_witness :
    module_saved_content ai_always_raise "avatars" cfg_avatars base_data_example
        ("01/01/2025 00:00:00") =
      generate_fallback_module_content "avatars" cfg_avatars base_data_example
        ("01/01/2025 00:00:00") :=
  c2_amended_fallback_written ai_always_raise "avatars" cfg_avatars base_data_example
    ("01/01/2025 00:00:00")
    (fun _ _ _ hs => nomatch hs)
    (Or.inl ⟨"API indisponível", rfl⟩)

/-! ## `comprehensive_report_generator_v3.py`: data model -/

/-- `self.modules_order` of `ComprehensiveReportGeneratorV3.__init__`. -/
def modules_order : List String :=
  ["anti_objecao", "avatars", "concorrencia", "drivers_mentais", "funil_vendas",
   "insights_mercado", "palavras_chave", "plano_acao", "posicionamento", "pre_pitch",
   "predicoes_futuro", "provas_visuais", "metricas_conversao", "estrategia_preco",
   "canais_aquisicao", "cronograma_lancamento"]

/-- `self.module_titles` of `ComprehensiveReportGeneratorV3.__init__`. -/
def module_titles : List (String × String) :=
  [("anti_objecao", "Sistema Anti-Objeção"),
   ("avatars", "Avatares do Público-Alvo"),
   ("concorrencia", "Análise Competitiva"),
   ("drivers_mentais", "Drivers Mentais"),
   ("funil_vendas", "Funil de Vendas"),
   ("insights_mercado", "Insights de Mercado"),
   ("palavras_chave", "Estratégia de Palavras-Chave"),
   ("plano_acao", "Plano de Ação"),
   ("posicionamento", "Estratégia de Posicionamento"),
   ("pre_pitch", "Estrutura de Pré-Pitch"),
   ("predicoes_futuro", "Predições de Mercado"),
   ("provas_visuais", "Sistema de Provas Visuais"),
   ("metricas_conversao", "Métricas de Conversão"),
   ("estrategia_preco", "Estratégia de Precificação"),
   ("canais_aquisicao", "Canais de Aquisição"),
   ("cronograma_lancamento", "Cronograma de Lançamento")]

/-- `self.module_titles.get(module_name, module_name.replace('_', ' ').title())`. -/
def module_title_of (name : String) : String :=
  match alist_lookup module_titles name with
  | some t => t
  | none => pyTitle (underscoreToSpace name)

/-- The `resumo_sintese.json` value, when present and truthy: a loaded JSON
value with the two lists the compiler reads, whether the value is a dict
(the `isinstance(sintese, dict)` test), and its `json.dumps(…, indent=2,
ensure_ascii=False)` rendering, carried opaquely for the complete-report
excerpt. -/
structure Sintese where
  is_dict : Bool
  insights_principais : List String
  oportunidades_identificadas : List String
  rendered : String
deriving DecidableEq

/-- `_load_available_modules` (lines 270-301): iterate the fixed order,
keeping a file whose content strips to more than 100 characters.  The
result keeps the insertion order of the Python dict. -/
def load_available_modules (fs : FS) : List (String × String) :=
  modules_order.foldl
    (fun acc name =>
      match fs name with
      | some content =>
        if pyStrip content ≠ "" ∧ 100 < (pyStrip content).length then
          acc ++ [(name, content)]
        else acc
      | none => acc)
    []

/-- `_load_screenshot_paths` (lines 303-323): the `*.png` entries of the
session file directory, as relative paths. -/
def load_screenshot_paths (session_id : String) (files : List String) : List String :=
  (files.filter (fun f => pyEndsWith f (".png"))).map
    (fun f => "files/" ++ session_id ++ "/" ++ f)

/-- The message of `str(e)` for the attribute error described at
`create_emergency_modules`. -/
def report_attribute_error : String :=
  "'ComprehensiveReportGeneratorV3' object has no attribute 'modules_config'"

/-- `_create_emergency_modules` (lines 153-238).  Its first executed
expression iterates `self.modules_config.items()`, but
`ComprehensiveReportGeneratorV3.__init__` defines only `modules_order` and
`module_titles`, never `modules_config`; the attribute lookup therefore
raises `AttributeError` (outside the per-module `try`) before any module is
written, and the rest of the method body is unreachable. -/
def create_emergency_modules : Except String (List (String × String)) :=
  Except.error report_attribute_error

/-! ## `comprehensive_report_generator_v3.py`: report content -/

/-- One compiled module section of `_compile_report_content`
(lines 432-437). -/
def present_module_section (name content : String) : String :=
  "## " ++ module_title_of name ++ "\n\n" ++ content ++ "\n\n---\n\n"

/-- The placeholder section for a module that cannot be loaded
(lines 438-444). -/
def missing_module_section (session_id name : String) : String :=
  "## " ++ module_title_of name
    ++ "\n\n⚠️ **Módulo não disponível** - Dados preservados para análise manual\n\nConsulte: `analyses_data/"
    ++ session_id ++ "/` para dados completos\n\n---\n\n"

/-- The module blocks of the final report, one per `modules_order` entry
(name paired with emitted section text). -/
def module_sections (session_id : String) (modules : List (String × String)) :
    List (String × String) :=
  modules_order.map (fun name =>
    match alist_lookup modules name with
    | some content => (name, present_module_section name content)
    | none => (name, missing_module_section session_id name))

/-- The numbered check list under `### Módulos Incluídos:` (lines 368-375;
the `size_info` local computed there is dead code and never emitted). -/
def modules_included_list (modules : List (String × String)) : String :=
  (List.enumFrom 1 modules_order).foldl
    (fun acc p =>
      acc ++ toString p.1 ++ ". "
        ++ (if (alist_lookup modules p.2).isSome then "✅" else "❌")
        ++ " " ++ module_title_of p.2 ++ "\n")
    ""

/-- The keyword filter of lines 385-386. -/
def collection_stats_lines (coleta : String) : List String :=
  (pySplitLines coleta).filter (fun line =>
    ["total", "fontes", "páginas", "resultados"].any (fun k => pyContains (pyLower line) k))

/-- The `## RESUMO DA COLETA MASSIVA` block (lines 380-394); skipped when
the collection report is absent or empty (Python truthiness). -/
def collection_summary_section (collection_data : Option String) : String :=
  match collection_data with
  | none => ""
  | some coleta =>
    if coleta = "" then ""
    else
      "## RESUMO DA COLETA MASSIVA\n\n"
        ++ (if collection_stats_lines coleta ≠ [] then
              "### Estatísticas da Coleta:\n"
                ++ ((collection_stats_lines coleta).take 10).foldl
                    (fun acc line =>
                      if pyStrip line ≠ "" then acc ++ "- " ++ pyStrip line ++ "\n" else acc)
                    ""
            else "")
        ++ "\n---\n\n"

def numbered_lines (xs : List String) : String :=
  (List.enumFrom 1 xs).foldl (fun acc p => acc ++ toString p.1 ++ ". " ++ p.2 ++ "\n") ""

/-- The `## INSIGHTS PRINCIPAIS DA SÍNTESE` block (lines 397-413); skipped
when `resumo_sintese` is absent or falsy. -/
def sintese_insights_section (sd : Option Sintese) : String :=
  match sd with
  | none => ""
  | some sintese =>
    "## INSIGHTS PRINCIPAIS DA SÍNTESE\n\n"
      ++ (if sintese.is_dict then
            (if sintese.insights_principais ≠ [] then
              numbered_lines (sintese.insights_principais.take 10)
             else "")
              ++ (if sintese.oportunidades_identificadas ≠ [] then
                    "\n### Oportunidades Identificadas:\n"
                      ++ (List.enumFrom 1 (sintese.oportunidades_identificadas.take 8)).foldl
                          (fun acc p => acc ++ "**" ++ toString p.1 ++ ".** " ++ p.2 ++ "\n") ""
                  else "")
          else "")
      ++ "\n---\n\n"

/-- The `## EVIDÊNCIAS VISUAIS DOS POSTS MAIS VIRAIS` block
(lines 416-429). -/
def screenshots_section (screenshots : List String) : String :=
  if screenshots.isEmpty then ""
  else
    "## EVIDÊNCIAS VISUAIS DOS POSTS MAIS VIRAIS\n\nForam capturados **"
      ++ toString screenshots.length
      ++ " screenshots** dos posts com maior potencial de conversão identificados na busca social massiva.\n\n"
      ++ (List.enumFrom 1 screenshots).foldl
          (fun acc p =>
            acc ++ "### Evidência Visual " ++ toString p.1 ++ "\n![Screenshot " ++ toString p.1
              ++ "](" ++ p.2 ++ ")\n\n"
              ++ (if pyContains (pyLower (lastPathComponent p.2)) ("viral") then
                    "*Post viral capturado - Alto potencial de conversão*\n\n"
                  else ""))
          ""
      ++ "---\n\n"

/-- Python `round(num / den)` with ties to even. -/
def round_half_even (num den : Nat) : Nat :=
  let q := num / den
  let r := num % den
  if den < 2 * r then q + 1
  else if 2 * r < den then q
  else if q % 2 = 0 then q else q + 1

/-- The `:.1f` formatting of the success percentage.  For the values that
occur here (`n/16*100`, exactly representable in binary), CPython rounds
ties to even, as this does. -/
def format_percent_1dp (n d : Nat) : String :=
  toString (round_half_even (n * 1000) d / 10) ++ "." ++ toString (round_half_even (n * 1000) d % 10)

/-- `_compile_report_content` up to the first timestamp interpolation. -/
def compile_report_part1 (session_id : String) : String :=
  "# RELATÓRIO FINAL ULTRA-ROBUSTO - ARQV30 Enhanced v3.0\n\n**Sessão:** " ++ session_id
    ++ "  \n**Gerado em:** "

/-- `_compile_report_content` between its two timestamp interpolations:
rest of the header, module check list, collection summary, synthesis
insights, screenshot evidence, the per-module sections in `modules_order`
order, and the footer up to `**Data de Compilação:**`. -/
def compile_report_part2 (session_id : String) (modules : List (String × String))
    (screenshots : List String) (collection_data : Option String) (sd : Option Sintese) : String :=
  "  \n**Módulos Compilados:** " ++ toString modules.length ++ "/" ++ toString modules_order.length
    ++ "  \n**Screenshots Incluídos:** " ++ toString screenshots.length
    ++ "\n**Metodologia:** Busca Massiva + Alibaba WebSailor + Análise Social + Screenshots Virais\n\n---\n\n## SUMÁRIO EXECUTIVO\n\nEste relatório consolida a análise ULTRA-ROBUSTA realizada pelo sistema ARQV30 Enhanced v3.0, contemplando:\n\n- **"
    ++ toString modules.length
    ++ " módulos especializados** de análise estratégica\n- **Busca massiva** com Alibaba WebSailor para navegação profunda\n- **Análise social** com identificação de conteúdo viral\n- **"
    ++ toString screenshots.length
    ++ " screenshots** dos posts com maior conversão\n- **Dados 100% reais** sem simulação ou cache\n\n### Garantias de Qualidade:\n\n✅ **Dados Reais**: 100% baseado em fontes verificadas  \n✅ **Busca Profunda**: Alibaba WebSailor + rotação de APIs  \n✅ **Evidências Visuais**: Screenshots dos posts mais virais  \n✅ **Análise Completa**: Todos os 16 módulos obrigatórios  \n✅ **Zero Simulação**: Nenhum dado simulado ou genérico  \n\n### Módulos Incluídos:\n"
    ++ modules_included_list modules
    ++ "\n---\n\n"
    ++ collection_summary_section collection_data
    ++ sintese_insights_section sd
    ++ screenshots_section screenshots
    ++ (module_sections session_id modules).foldl (fun acc p => acc ++ p.2) ""
    ++ "\n## INFORMAÇÕES TÉCNICAS\n\n**Sistema:** ARQV30 Enhanced v3.0  \n**Sessão:** "
    ++ session_id ++ "  \n**Data de Compilação:** "

/-- `_compile_report_content` after the second timestamp interpolation. -/
def compile_report_part3 (session_id : String) (modules : List (String × String))
    (screenshots : List String) : String :=
  "  \n**Módulos Processados:** " ++ toString modules.length ++ "/" ++ toString modules_order.length
    ++ "  \n**Screenshots Virais:** " ++ toString screenshots.length
    ++ "  \n**Status:** "
    ++ (if modules.length = modules_order.length then "Completo" else "Parcial - Dados Preservados")
    ++ "\n\n### Metodologia Aplicada:\n\n1. **Busca Massiva**: Alibaba WebSailor para navegação profunda\n2. **Rotação de APIs**: Múltiplas chaves para máxima cobertura\n3. **Análise Social**: Identificação de conteúdo viral\n4. **Captura Visual**: Screenshots dos posts mais relevantes\n5. **Síntese com IA**: Processamento inteligente dos dados\n6. **Geração Modular**: 16 módulos especializados\n7. **Compilação Final**: Relatório consolidado e robusto\n\n### Estatísticas de Compilação:\n- ✅ Sucessos: "
    ++ toString modules.length
    ++ "\n- ❌ Falhas: " ++ toString (modules_order.length - modules.length)
    ++ "\n- 📊 Taxa de Sucesso: " ++ format_percent_1dp modules.length modules_order.length
    ++ "%\n- 📸 Evidências Visuais: " ++ toString screenshots.length
    ++ "\n- 🔍 Busca Profunda: Alibaba WebSailor + APIs\n- 📱 Análise Social: Posts virais identificados\n\n### Localização dos Dados:\n\n- **Módulos**: `analyses_data/"
    ++ session_id
    ++ "/modules/`\n- **Screenshots**: `analyses_data/files/" ++ session_id
    ++ "/`\n- **Relatório de Coleta**: `analyses_data/" ++ session_id
    ++ "/relatorio_coleta.md`\n- **Síntese**: `analyses_data/" ++ session_id
    ++ "/resumo_sintese.json`\n- **Logs Detalhados**: `relatorios_intermediarios/`\n\n---\n\n*Relatório ULTRA-ROBUSTO compilado automaticamente pelo ARQV30 Enhanced v3.0*\n\n**GARANTIA**: Todos os dados foram preservados e estão disponíveis para análise manual caso necessário.\n"

/-- `_compile_report_content` (lines 325-490), with the two
`datetime.now().strftime(…)` renderings threaded as `now`. -/
def compile_report_content (session_id : String) (modules : List (String × String))
    (screenshots : List String) (collection_data : Option String) (sd : Option Sintese)
    (now : String) : String :=
  compile_report_part1 session_id ++ now
    ++ compile_report_part2 session_id modules screenshots collection_data sd ++ now
    ++ compile_report_part3 session_id modules screenshots

/-- `_create_complete_report` up to its timestamp interpolation. -/
def complete_report_part1 (session_id : String) : String :=
  "# RELATÓRIO COMPLETO ULTRA-DETALHADO - ARQV30 Enhanced v3.0\n\n**Sessão:** " ++ session_id
    ++ "  \n**Gerado em:** "

/-- `_create_complete_report` after its timestamp interpolation: raw
collection excerpt (5000 characters), synthesis dump excerpt (3000
characters), every module in order (content or unavailable note), the
complete screenshot list and the metadata footer. -/
def complete_report_part2 (session_id : String) (modules : List (String × String))
    (screenshots : List String) (collection_data : Option String) (sd : Option Sintese) : String :=
  "  \n**Tipo:** Relatório Completo com Todos os Dados  \n**Módulos:** "
    ++ toString modules.length ++ "/" ++ toString modules_order.length
    ++ "  \n**Screenshots:** " ++ toString screenshots.length
    ++ "  \n\n---\n\n## DADOS BRUTOS DE COLETA\n\n"
    ++ pyTake (collection_data.getD ("Dados de coleta não disponíveis")) 5000
    ++ "\n\n---\n\n## SÍNTESE ESTRUTURADA\n\n```json\n"
    ++ pyTake (match sd with | some s => s.rendered | none => "\x7b\x7d") 3000
    ++ "\n```\n\n---\n\n## MÓDULOS DETALHADOS\n\n"
    ++ modules_order.foldl
        (fun acc name =>
          acc ++ "### " ++ module_title_of name ++ "\n\n"
            ++ (match alist_lookup modules name with
                | some content => content
                | none =>
                  "Módulo " ++ name ++ " não disponível - dados preservados para análise manual\n")
            ++ "\n\n")
        ""
    ++ (if screenshots.isEmpty then ""
        else
          "## EVIDÊNCIAS VISUAIS COMPLETAS\n\n"
            ++ (List.enumFrom 1 screenshots).foldl
                (fun acc p => acc ++ "![Evidência " ++ toString p.1 ++ "](" ++ p.2 ++ ")\n\n") "")
    ++ "\n---\n\n## METADADOS COMPLETOS\n\n- **Sistema**: ARQV30 Enhanced v3.0\n- **Metodologia**: Busca Massiva + WebSailor + Social + Screenshots\n- **Garantia**: 100% dados reais preservados\n- **Localização**: analyses_data/"
    ++ session_id
    ++ "/\n\n*Relatório completo gerado automaticamente*\n"

/-- `_create_complete_report` (lines 492-561). -/
def create_complete_report (session_id : String) (modules : List (String × String))
    (screenshots : List String) (collection_data : Option String) (sd : Option Sintese)
    (now : String) : String :=
  complete_report_part1 session_id ++ now
    ++ complete_report_part2 session_id modules screenshots collection_data sd

/-! ## `comprehensive_report_generator_v3.py`: statistics and entry point -/

/-- The dict returned by `_generate_report_statistics` (lines 597-626). -/
structure ReportStatistics where
  total_modules : Nat
  modules_compiled : Nat
  modules_missing : Nat
  success_rate : ℚ
  screenshots_included : Nat
  total_characters : Nat
  estimated_pages : Nat
  compilation_timestamp : String
  paginas_estimadas : Nat
  secoes_geradas : Nat
  taxa_completude : ℚ
  evidencias_visuais : Nat
  busca_profunda : String
  analise_social : String
  metodologia : String
deriving DecidableEq

def generate_report_statistics (modules : List (String × String)) (screenshots : List String)
    (report_content : String) (complete_report : String) (now : String) : ReportStatistics :=
  { total_modules := modules_order.length
    modules_compiled := modules.length
    modules_missing := modules_order.length - modules.length
    success_rate := (modules.length : ℚ) / (modules_order.length : ℚ) * 100
    screenshots_included := screenshots.length
    total_characters := report_content.length + complete_report.length
    estimated_pages := max 25 ((report_content.length + complete_report.length) / 2000)
    compilation_timestamp := now
    paginas_estimadas := max 25 ((report_content.length + complete_report.length) / 2000)
    secoes_geradas := modules.length
    taxa_completude := (modules.length : ℚ) / (modules_order.length : ℚ) * 100
    evidencias_visuais := screenshots.length
    busca_profunda := "Alibaba WebSailor + APIs"
    analise_social := "Posts virais identificados"
    metodologia := "Ultra-Robusta v3.0" }

/-- The fields of the statistics other than the compilation timestamp. -/
structure ReportStatisticsCore where
  total_modules : Nat
  modules_compiled : Nat
  modules_missing : Nat
  success_rate : ℚ
  screenshots_included : Nat
  total_characters : Nat
  estimated_pages : Nat
  paginas_estimadas : Nat
  secoes_geradas : Nat
  taxa_completude : ℚ
  evidencias_visuais : Nat
deriving DecidableEq

def stats_core (s : ReportStatistics) : ReportStatisticsCore :=
  ⟨s.total_modules, s.modules_compiled, s.modules_missing, s.success_rate,
   s.screenshots_included, s.total_characters, s.estimated_pages, s.paginas_estimadas,
   s.secoes_geradas, s.taxa_completude, s.evidencias_visuais⟩

/-- The success dict of `compile_final_markdown_report`. -/
structure CompileSuccess where
  session_id : String
  report_path : String
  complete_report_path : String
  modules_compiled : Nat
  screenshots_included : Nat
  estatisticas_relatorio : ReportStatistics
  timestamp : String
deriving DecidableEq

/-- The failure dict of the `except` branch (lines 144-151). -/
structure CompileFailure where
  error : String
  session_id : String
  timestamp : String
deriving DecidableEq

inductive CompileResult where
  | ok (r : CompileSuccess)
  | err (e : CompileFailure)
deriving DecidableEq

/-- `compile_final_markdown_report` (lines 62-151).  `fs` is the session's
`modules/` directory, `files` the listing of its screenshot directory.
When no module loads, `_create_emergency_modules` is called and its
`AttributeError` is caught by the surrounding `try`, producing the failure
dict; otherwise the loaded modules are compiled, both report documents are
written (reliably, to the two fixed paths) and the statistics computed. -/
def compile_final_markdown_report (session_id : String) (fs : FS) (files : List String)
    (collection_data : Option String) (sd : Option Sintese) (now : String) : CompileResult :=
  match (if (load_available_modules fs).isEmpty then create_emergency_modules
         else Except.ok (load_available_modules fs)) with
  | .error e => .err ⟨e, session_id, now⟩
  | .ok modules =>
    .ok ⟨session_id,
         "analyses_data/" ++ session_id ++ "/relatorio_final.md",
         "analyses_data/" ++ session_id ++ "/relatorio_final_completo.md",
         modules.length,
         (load_screenshot_paths session_id files).length,
         generate_report_statistics modules (load_screenshot_paths session_id files)
           (compile_report_content session_id modules (load_screenshot_paths session_id files)
             collection_data sd now)
           (create_complete_report session_id modules (load_screenshot_paths session_id files)
             collection_data sd now)
           now,
         now⟩

/-! ## C3 -/

/-- C3 fails on the code: for a session with no module artifact at all,
`compile_final_markdown_report` does not return a success result with
sixteen placeholder sections.  `_create_emergency_modules` raises
`AttributeError` (the class has no `modules_config` attribute), the outer
`try` converts it into the failure dict, and no report document is
produced. -/
theorem c3_empty_session_compile_fails :
    compile_final_markdown_report ("sessao_vazia") (fun _ => none) [] none none
        ("2025-01-01T00:00:00") =
      .err ⟨report_attribute_error, "sessao_vazia", "2025-01-01T00:00:00"⟩ := rfl

/-! ## C4 -/

lemma module_sections_fst (session_id : String) (modules : List (String × String)) :
    (module_sections session_id modules).map Prod.fst = modules_order := by
  unfold module_sections
  rw [List.map_map]
  have h : ∀ name ∈ modules_order,
      (Prod.fst ∘ fun name =>
        match alist_lookup modules name with
        | some content => (name, present_module_section name content)
        | none => (name, missing_module_section session_id name)) name = id name := by
    intro name _
    simp only [Function.comp_apply, id_eq]
    rcases hlk : alist_lookup modules name with _ | c <;> rfl
  rw [List.map_congr_left h, List.map_id]

lemma compile_report_content_length_eq (session_id : String) (modules : List (String × String))
    (screenshots : List String) (collection_data : Option String) (sd : Option Sintese)
    (t1 t2 : String) (h : t1.length = t2.length) :
    (compile_report_content session_id modules screenshots collection_data sd t1).length =
    (compile_report_content session_id modules screenshots collection_data sd t2).length := by
  unfold compile_report_content
  simp only [String.length_append, h]

lemma create_complete_report_length_eq (session_id : String) (modules : List (String × String))
    (screenshots : List String) (collection_data : Option String) (sd : Option Sintese)
    (t1 t2 : String) (h : t1.length = t2.length) :
    (create_complete_report session_id modules screenshots collection_data sd t1).length =
    (create_complete_report session_id modules screenshots collection_data sd t2).length := by
  unfold create_complete_report
  simp only [String.length_append, h]

lemma stats_core_time_invariant (modules : List (String × String)) (screenshots : List String)
    (rep1 rep2 comp1 comp2 : String) (t1 t2 : String)
    (hr : rep1.length = rep2.length) (hc : comp1.length = comp2.length) :
    stats_core (generate_report_statistics modules screenshots rep1 comp1 t1) =
    stats_core (generate_report_statistics modules screenshots rep2 comp2 t2) := by
  unfold stats_core generate_report_statistics
  simp only [hr, hc]

/-- C4 (amended): compiling twice from the same persisted artifacts yields
the same module ordering (always the fixed `modules_order`) and identical
statistics in every field except `compilation_timestamp`, which records the
instant of each compile call and therefore differs between two real calls;
`total_characters` agrees because the two embedded timestamp renderings
have the same fixed width. -/
theorem c4_amended_idempotent_compile (session_id : String) (fs : FS) (files : List String)
    (collection_data : Option String) (sd : Option Sintese) (t1 t2 : String)
    (havail : load_available_modules fs ≠ [])
    (hlen : t1.length = t2.length) :
    (∃ r1 r2,
      compile_final_markdown_report session_id fs files collection_data sd t1 = .ok r1 ∧
      compile_final_markdown_report session_id fs files collection_data sd t2 = .ok r2 ∧
      stats_core r1.estatisticas_relatorio = stats_core r2.estatisticas_relatorio) ∧
    (module_sections session_id (load_available_modules fs)).map Prod.fst = modules_order := by
  rcases hl : load_available_modules fs with _ | ⟨p, rest⟩
  · exact absurd hl havail
  · have hred : ∀ t, compile_final_markdown_report session_id fs files collection_data sd t =
        .ok ⟨session_id,
             "analyses_data/" ++ session_id ++ "/relatorio_final.md",
             "analyses_data/" ++ session_id ++ "/relatorio_final_completo.md",
             (p :: rest).length,
             (load_screenshot_paths session_id files).length,
             generate_report_statistics (p :: rest) (load_screenshot_paths session_id files)
               (compile_report_content session_id (p :: rest)
                 (load_screenshot_paths session_id files) collection_data sd t)
               (create_complete_report session_id (p :: rest)
                 (load_screenshot_paths session_id files) collection_data sd t)
               t,
             t⟩ := by
      intro t
      unfold compile_final_markdown_report
      rw [hl]
      rfl
    refine ⟨⟨_, _, hred t1, hred t2, ?_⟩, ?_⟩
    · exact stats_core_time_invariant _ _ _ _ _ _ _ _
        (compile_report_content_length_eq _ _ _ _ _ _ _ hlen)
        (create_complete_report_length_eq _ _ _ _ _ _ _ hlen)
    · exact module_sections_fst _ _

/-- A 150-character artifact: passes the 100-character compiler filter. -/
def module_content_example : String := ⟨List.replicate 150 'x'⟩

/-- A session store holding exactly one module artifact. -/
def fs_single : FS := fun n => if n = "avatars" then some module_content_example else none

def stats_timestamp_of : Option ReportStatistics → Option String :=
  Option.map (fun s => s.compilation_timestamp)

def compile_stats (session_id : String) (fs : FS) (files : List String)
    (collection_data : Option String) (sd : Option Sintese) (now : String) :
    Option ReportStatistics :=
  match compile_final_markdown_report session_id fs files collection_data sd now with
  | .ok r => some r.estatisticas_relatorio
  | .err _ => none

set_option maxRecDepth 8000 in
/-- C4 is refuted as stated: two compile calls over the same artifacts at
different instants return statistics dicts that are not identical — the
`compilation_timestamp` field records `datetime.now().isoformat()` of each
call. -/
theorem c4_counterexample :
    compile_stats ("sessao_c4") fs_single [] none none ("2025-01-01T10:00:00.000001") ≠
    compile_stats ("sessao_c4") fs_single [] none none ("2025-01-01T10:00:07.000002") :=
  fun h => absurd (congrArg stats_timestamp_of h) (by decide)

set_option maxRecDepth 8000 in
theorem c4_amended_idempotent_compile_witness :
    (load_available_modules fs_single ≠ []) ∧
    ((∃ r1 r2,
      compile_final_markdown_report ("sessao_c4") fs_single [] none none
          ("2025-01-01T10:00:00.000001") = .ok r1 ∧
      compile_final_markdown_report ("sessao_c4") fs_single [] none none
          ("2025-01-01T10:00:07.000002") = .ok r2 ∧
      stats_core r1.estatisticas_relatorio = stats_core r2.estatisticas_relatorio) ∧
    (module_sections ("sessao_c4") (load_available_modules fs_single)).map Prod.fst =
      modules_order) :=
  ⟨by decide,
   c4_amended_idempotent_compile ("sessao_c4") fs_single [] none none
     ("2025-01-01T10:00:00.000001") ("2025-01-01T10:00:07.000002") (by decide) (by decide)⟩

/-! ## C10 -/

/-- The acceptance decision of `_load_available_modules` for one name. -/
def load_filter_fun (fs : FS) (name : String) : Option (String × String) :=
  match fs name with
  | some content =>
    if pyStrip content ≠ "" ∧ 100 < (pyStrip content).length then some (name, content) else none
  | none => none

lemma load_fold_eq (fs : FS) :
    ∀ (l : List String) (acc : List (String × String)),
      (l.foldl
        (fun acc name =>
          match fs name with
          | some content =>
            if pyStrip content ≠ "" ∧ 100 < (pyStrip content).length then
              acc ++ [(name, content)]
            else acc
          | none => acc)
        acc) = acc ++ l.filterMap (load_filter_fun fs) := by
  intro l
  induction l with
  | nil => intro acc; simp
  | cons a t ih =>
    intro acc
    simp only [List.foldl_cons, List.filterMap_cons]
    rcases hfa : fs a with _ | content
    · simp [load_filter_fun, hfa, ih]
    · by_cases hc : pyStrip content ≠ "" ∧ 100 < (pyStrip content).length
      · simp [load_filter_fun, hfa, hc, ih]
      · simp [load_filter_fun, hfa, hc, ih]

lemma load_available_modules_eq (fs : FS) :
    load_available_modules fs = modules_order.filterMap (load_filter_fun fs) := by
  unfold load_available_modules
  rw [load_fold_eq fs modules_order []]
  simp

lemma load_filter_fun_eq_some (fs : FS) (a : String) (p : String × String)
    (h : load_filter_fun fs a = some p) :
    p.1 = a ∧ fs a = some p.2 ∧ pyStrip p.2 ≠ "" ∧ 100 < (pyStrip p.2).length := by
  unfold load_filter_fun at h
  rcases hfa : fs a with _ | c
  · simp [hfa] at h
  · simp only [hfa] at h
    by_cases hc : pyStrip c ≠ "" ∧ 100 < (pyStrip c).length
    · rw [if_pos hc] at h
      have hp : p = (a, c) := (Option.some.inj h).symm
      subst hp
      exact ⟨rfl, by simp [hfa], hc.1, hc.2⟩
    · rw [if_neg hc] at h
      cases h

lemma alist_lookup_eq_none {α : Type} :
    ∀ (l : List (String × α)) (k : String), k ∉ l.map Prod.fst → alist_lookup l k = none := by
  intro l
  induction l with
  | nil => intro k _; rfl
  | cons p t ih =>
    intro k hk
    simp only [List.map_cons, List.mem_cons, not_or] at hk
    unfold alist_lookup
    rw [if_neg (fun he => hk.1 he.symm), ih k hk.2]

lemma filterMap_length_lt {α β : Type} (f : α → Option β) :
    ∀ (l : List α) (a : α), a ∈ l → f a = none → (l.filterMap f).length < l.length := by
  intro l
  induction l with
  | nil => intro a ha; cases ha
  | cons b t ih =>
    intro a ha hfa
    rcases List.mem_cons.mp ha with rfl | ha
    · simp only [List.filterMap_cons, hfa, List.length_cons]
      exact Nat.lt_succ_of_le (t.length_filterMap_le f)
    · rcases hfb : f b with _ | c
      · simp only [List.filterMap_cons, hfb, List.length_cons]
        exact Nat.lt_succ_of_lt (ih a ha hfa)
      · simp only [List.filterMap_cons, hfb, List.length_cons]
        exact Nat.succ_lt_succ (ih a ha hfa)

/-- C10: an existing artifact whose whitespace-stripped content is 100
characters or fewer is treated as unavailable by the compiler, even though
a nonzero-size file exists: it is excluded from the loaded modules, its
block in the compiled report is the missing-module placeholder, and the
statistics count it as missing (the success rate stays below 100). -/
theorem c10_small_artifact_missing (fs : FS) (session_id : String) (name content : String)
    (screenshots : List String) (rep comp now : String)
    (hmem : name ∈ modules_order) (hfs : fs name = some content)
    (_hnonzero : 0 < content.length) (hsmall : (pyStrip content).length ≤ 100) :
    name ∉ (load_available_modules fs).map Prod.fst ∧
    (name, missing_module_section session_id name) ∈
      module_sections session_id (load_available_modules fs) ∧
    (load_available_modules fs).length < modules_order.length ∧
    (generate_report_statistics (load_available_modules fs) screenshots rep comp now).modules_compiled
      = (load_available_modules fs).length ∧
    (generate_report_statistics (load_available_modules fs) screenshots rep comp now).modules_missing
      = modules_order.length - (load_available_modules fs).length ∧
    (generate_report_statistics (load_available_modules fs) screenshots rep comp now).success_rate
      < 100 := by
  have hnone : load_filter_fun fs name = none := by
    unfold load_filter_fun
    simp only [hfs]
    rw [if_neg]
    rintro ⟨-, hgt⟩
    omega
  have hnotmem : name ∉ (load_available_modules fs).map Prod.fst := by
    rw [load_available_modules_eq]
    rintro hmem'
    obtain ⟨q, hq, hqfst⟩ := List.mem_map.mp hmem'
    obtain ⟨a, _, hfa⟩ := List.mem_filterMap.mp hq
    obtain ⟨h1, -, -, -⟩ := load_filter_fun_eq_some fs a q hfa
    rw [hqfst] at h1
    subst h1
    rw [hfa] at hnone
    cases hnone
  have hlt : (load_available_modules fs).length < modules_order.length := by
    rw [load_available_modules_eq]
    exact filterMap_length_lt _ modules_order name hmem hnone
  refine ⟨hnotmem, ?_, hlt, rfl, rfl, ?_⟩
  · apply List.mem_map.mpr
    refine ⟨name, hmem, ?_⟩
    rw [alist_lookup_eq_none _ _ hnotmem]
  · show ((load_available_modules fs).length : ℚ) / (modules_order.length : ℚ) * 100 < 100
    have h16 : ((modules_order.length : ℚ)) = 16 := by norm_num [modules_order]
    have hn : ((load_available_modules fs).length : ℚ) < 16 := by
      have : (load_available_modules fs).length < 16 := by
        simpa [modules_order] using hlt
      exact_mod_cast this
    rw [h16, div_mul_eq_mul_div, div_lt_iff₀ (by norm_num : (0:ℚ) < 16)]
    linarith

/-- A 90-character artifact (nonzero size, stripped length under 100). -/
def small_module_content : String := ⟨List.replicate 90 'y'⟩

def fs_small : FS := fun n => if n = "avatars" then some small_module_content else none

set_option maxRecDepth 8000 in
theorem c10_small_artifact_missing_witness :
    ("avatars" ∈ modules_order ∧ fs_small "avatars" = some small_module_content ∧
      0 < small_module_content.length ∧ (pyStrip small_module_content).length ≤ 100) ∧
    ("avatars" ∉ (load_available_modules fs_small).map Prod.fst ∧
      ("avatars", missing_module_section ("s10") "avatars") ∈
        module_sections ("s10") (load_available_modules fs_small) ∧
      (load_available_modules fs_small).length < modules_order.length ∧
      (generate_report_statistics (load_available_modules fs_small) [] ("r") ("c") ("t")).modules_compiled
        = (load_available_modules fs_small).length ∧
      (generate_report_statistics (load_available_modules fs_small) [] ("r") ("c") ("t")).modules_missing
        = modules_order.length - (load_available_modules fs_small).length ∧
      (generate_report_statistics (load_available_modules fs_small) [] ("r") ("c") ("t")).success_rate
        < 100) :=
  ⟨⟨by decide, by decide, by decide, by decide⟩,
   c10_small_artifact_missing fs_small ("s10") "avatars" small_module_content [] ("r") ("c") ("t")
     (by decide) (by decide) (by decide) (by decide)⟩

/-! ## `massive_data_collector.py`: data model -/

/-- One search hit; only its `url` key is ever read by the URL
collectors (`result.get("url")`). -/
structure SearchResult where
  url : Option String
deriving DecidableEq

/-- The dict returned by a successful
`enhanced_search_coordinator.execute_simultaneous_distinct_search`; the
collector reads exactly these three keys (lines 264-268). -/
structure MainResults where
  exa_results : List SearchResult
  google_results : List SearchResult
  other_results : List SearchResult
deriving DecidableEq

/-- The caller-supplied context dict; only `segmento` and `produto` are
read, with `""` standing for an absent key. -/
structure Context where
  segmento : String
  produto : String
deriving DecidableEq

/-- One social post dict.  `none` is an absent key; the numeric metrics are
naturals (the youtube branch's parse of comma-formatted counts via
`int(str(…).replace(',', ''))` is outside the scope of the claims). -/
structure Post where
  url : Option String
  title : Option String
  text : Option String
  caption : Option String
  content : Option String
  hashtags_detected : List String
  view_count : Option Nat
  like_count : Option Nat
  comment_count : Option Nat
  retweet_count : Option Nat
  reply_count : Option Nat
  likes : Option Nat
  comments : Option Nat
  shares : Option Nat
deriving DecidableEq

/-- One platform entry of the supadata result; only `results` is read. -/
structure PlatformData where
  results : List Post
deriving DecidableEq

/-- The dict returned by a successful
`mcp_supadata_manager.search_all_platforms`; downstream code reads only the
`platforms` mapping (modelled insertion-ordered). -/
structure PlatformsResults where
  platforms : List (String × PlatformData)
deriving DecidableEq

/-- Opaque output of the external `analyze_sentiment_trends`. -/
structure SentimentResult where
  raw : String
deriving DecidableEq

structure Fonte where
  url : Option String
  quality_score : Option ℚ
deriving DecidableEq

structure Consolidado where
  insights_principais : List String
  fontes_detalhadas : List Fonte
deriving DecidableEq

structure NavProfunda where
  total_caracteres_analisados : Nat
deriving DecidableEq

/-- The dict returned by a successful
`alibaba_websailor.navigate_and_research_deep`; `none` models an absent or
falsy (empty-dict) key. -/
structure WebsailorResults where
  conteudo_consolidado : Option Consolidado
  navegacao_profunda : Option NavProfunda
deriving DecidableEq

/-- The external collaborators of the collector, as `Except`-valued
functions (an `.error` is a raised exception at that call site). -/
structure Collaborators where
  enhanced_search : String → Context → String → Except String MainResults
  production_search : String → Nat → Except String (List SearchResult)
  search_all_platforms : String → Nat → Except String PlatformsResults
  analyze_sentiment_trends : PlatformsResults → Except String SentimentResult
  websailor_navigate : String → Context → Nat → Nat → String → Except String WebsailorResults
  extract_content : String → Except String (Option String)

/-! ## `massive_data_collector.py`: web-search phase -/

/-- `_generate_additional_queries` (lines 311-330); the base query is
unused in the source body as well. -/
def generate_additional_queries (_base_query : String) (context : Context) : List String :=
  (if context.segmento ≠ "" ∧ context.produto ≠ "" then
    [context.segmento ++ " " ++ context.produto ++ " mercado brasileiro 2024",
     context.segmento ++ " " ++ context.produto ++ " concorrentes Brasil",
     context.segmento ++ " " ++ context.produto ++ " tendências futuro",
     "como vender " ++ context.produto ++ " " ++ context.segmento,
     "estratégias marketing " ++ context.segmento ++ " " ++ context.produto,
     "público-alvo " ++ context.segmento ++ " " ++ context.produto,
     "preços " ++ context.produto ++ " " ++ context.segmento,
     "cases sucesso " ++ context.segmento ++ " " ++ context.produto]
   else []).take 5

/-- The `web_search_data` dict: each field holds either the collaborator's
result dict or the `{"error": str(e)}` marker its `except` branch stores
(lines 104-147), which the `Except` value models directly. -/
structure WebSearchData where
  enhanced_search_results : Except String MainResults
  production_search_results : Except String (List SearchResult)
  additional_queries_results : List (String × Except String (List SearchResult))

/-- `enhanced_results.get("exa_results", [])`: the error dict has no such
key, so the default applies. -/
def enhanced_exa (w : WebSearchData) : List SearchResult :=
  match w.enhanced_search_results with
  | .ok m => m.exa_results
  | .error _ => []

def enhanced_google (w : WebSearchData) : List SearchResult :=
  match w.enhanced_search_results with
  | .ok m => m.google_results
  | .error _ => []

def enhanced_other (w : WebSearchData) : List SearchResult :=
  match w.enhanced_search_results with
  | .ok m => m.other_results
  | .error _ => []

/-- `web_data.get("production_search_results", {}).get("results", [])`. -/
def production_results_of (w : WebSearchData) : List SearchResult :=
  match w.production_search_results with
  | .ok rs => rs
  | .error _ => []

/-- `_execute_massive_web_search` (lines 101-148): three independently
guarded collaborator calls. -/
def execute_massive_web_search (c : Collaborators) (query : String) (context : Context)
    (session_id : String) : WebSearchData :=
  { enhanced_search_results := c.enhanced_search query context session_id
    production_search_results := c.production_search query 50
    additional_queries_results :=
      (generate_additional_queries query context).map (fun q => (q, c.production_search q 20)) }

/-! ## `massive_data_collector.py`: social phase -/

/-- The post list pooled over all platforms (lines 166-169; a platform
contributes only when its `results` list is truthy). -/
def all_posts_of (pr : PlatformsResults) : List Post :=
  pr.platforms.foldl (fun acc p => if p.2.results.isEmpty then acc else acc ++ p.2.results) []

structure PlatformScore where
  platform : String
  score : Nat
  posts_count : Nat
deriving DecidableEq

structure EngagementMetrics where
  total_posts : Nat
  platforms_active : Nat
  avg_engagement_score : ℚ
  top_performing_platforms : List PlatformScore
deriving DecidableEq

/-- `_analyze_social_engagement` (lines 332-370).  The loop's running
`total_posts`/`platforms_active` counters are expressed over the collected
per-platform score list; `list.sort(key=…, reverse=True)` is the stable
descending sort. -/
def analyze_social_engagement (platforms_data : PlatformsResults) : EngagementMetrics :=
  let scores := platforms_data.platforms.foldl
    (fun acc p =>
      if p.2.results.isEmpty then acc
      else acc ++ [(⟨p.1, p.2.results.length * 10, p.2.results.length⟩ : PlatformScore)])
    []
  { total_posts := scores.foldl (fun a s => a + s.posts_count) 0
    platforms_active := scores.length
    avg_engagement_score :=
      if scores.isEmpty then 0
      else ((scores.foldl (fun a s => a + s.score) 0 : Nat) : ℚ) / (scores.length : ℚ)
    top_performing_platforms := (sortDescBy (fun s => s.score) scores).take 3 }

structure TrendingTopics where
  keywords_frequency : List (String × Nat)
  hashtags_found : List String
  common_themes : List String
deriving DecidableEq

/-- The text assembled per post (lines 386-394): `content`, `title`,
`text`, `caption`, each appended with a trailing space when truthy. -/
def post_text_of (post : Post) : String :=
  (match post.content with | some c => if c ≠ "" then c ++ " " else "" | none => "")
    ++ (match post.title with | some c => if c ≠ "" then c ++ " " else "" | none => "")
    ++ (match post.text with | some c => if c ≠ "" then c ++ " " else "" | none => "")
    ++ (match post.caption with | some c => if c ≠ "" then c ++ " " else "" | none => "")

/-- `word_freq[word] = word_freq.get(word, 0) + 1` on the insertion-ordered
dict model. -/
def bump_word (l : List (String × Nat)) (w : String) : List (String × Nat) :=
  if (alist_lookup l w).isSome then
    l.map (fun p => if p.1 = w then (p.1, p.2 + 1) else p)
  else l ++ [(w, 1)]

def joinSpace : List String → String
  | [] => ""
  | [s] => s
  | s :: rest => s ++ " " ++ joinSpace rest

def pair_themes : List String → List String
  | a :: b :: rest => (a ++ " + " ++ b) :: pair_themes rest
  | _ => []

/-- `_extract_trending_topics` (lines 372-434).  `list(set(hashtags))` has
hash-dependent order in CPython; the model keeps first-seen order, which no
claim depends on. -/
def extract_trending_topics (all_posts : List Post) : TrendingTopics :=
  let all_text := all_posts.foldl
    (fun acc post =>
      if pyStrip (post_text_of post) ≠ "" then acc ++ [pyLower (post_text_of post)] else acc)
    []
  let keywords :=
    if all_text.isEmpty then []
    else
      (sortDescBy (fun p => p.2)
        ((pySplitWhitespace (joinSpace all_text)).foldl
          (fun freq w => if 3 < w.length then bump_word freq w else freq) [])).take 20
  { keywords_frequency := keywords
    hashtags_found :=
      ((all_posts.foldl (fun acc post => acc ++ post.hashtags_detected) []).foldl setAdd []).take 10
    common_themes :=
      if keywords.isEmpty then [] else (pair_themes ((keywords.map Prod.fst).take 10)).take 5 }

/-- The `social_data` dict of `_execute_massive_social_collection`: its
four phase fields start as empty dicts (`none` here) and `error` is set by
the `except` branch. -/
structure SocialData where
  all_platforms_data : Option PlatformsResults
  sentiment_analysis : Option SentimentResult
  trending_topics : Option TrendingTopics
  engagement_metrics : Option EngagementMetrics
  error : Option String

/-- `_execute_massive_social_collection` (lines 150-183): every external
call sits inside one `try`; a raise leaves the fields assigned so far and
stores the error marker.  The context and session id parameters are unused
in the source body as well. -/
def execute_massive_social_collection (c : Collaborators) (query : String)
    (_context : Context) (_session_id : String) : SocialData :=
  match c.search_all_platforms query 25 with
  | .error e => ⟨none, none, none, none, some e⟩
  | .ok pr =>
    if (all_posts_of pr).isEmpty then
      ⟨some pr, none, some (extract_trending_topics (all_posts_of pr)),
       some (analyze_social_engagement pr), none⟩
    else
      match c.analyze_sentiment_trends pr with
      | .error e => ⟨some pr, none, none, none, some e⟩
      | .ok sent =>
        ⟨some pr, some sent, some (extract_trending_topics (all_posts_of pr)),
         some (analyze_social_engagement pr), none⟩

/-! ## `massive_data_collector.py`: deep-navigation phase -/

structure QualityMetrics where
  content_depth_score : Nat
  source_reliability_score : ℚ
  information_richness : ℚ
  total_insights : Nat
deriving DecidableEq

/-- `_analyze_content_quality` (lines 436-468). -/
def analyze_content_quality (ws : WebsailorResults) : QualityMetrics :=
  { total_insights :=
      (match ws.conteudo_consolidado with | some cc => cc.insights_principais | none => []).length
    content_depth_score :=
      min ((match ws.conteudo_consolidado with
            | some cc => cc.insights_principais | none => []).length * 10) 100
    source_reliability_score :=
      match ws.conteudo_consolidado with
      | some cc =>
        if cc.fontes_detalhadas.isEmpty then 0
        else (cc.fontes_detalhadas.foldl (fun a f => a + f.quality_score.getD 0) 0) /
          (cc.fontes_detalhadas.length : ℚ)
      | none => 0
    information_richness :=
      min (((match ws.navegacao_profunda with
             | some n => n.total_caracteres_analisados | none => 0) : ℚ) / 1000) 100 }

/-- The `deep_data` dict; `deep_content_analysis` is initialized empty and
never assigned anywhere in the source. -/
structure DeepData where
  websailor_navigation : Option WebsailorResults
  deep_content_analysis : Option Unit
  quality_metrics : Option QualityMetrics
  error : Option String

/-- `_execute_deep_navigation` (lines 185-209); quality metrics are
computed only when `conteudo_consolidado` is truthy. -/
def execute_deep_navigation (c : Collaborators) (query : String) (context : Context)
    (session_id : String) : DeepData :=
  match c.websailor_navigate query context 50 4 session_id with
  | .error e => ⟨none, none, none, some e⟩
  | .ok ws =>
    match ws.conteudo_consolidado with
    | some _ => ⟨some ws, none, some (analyze_content_quality ws), none⟩
    | none => ⟨some ws, none, none, none⟩

/-! ## `massive_data_collector.py`: URL dedup and extraction -/

/-- `all_urls.add(result["url"])` guarded by `if result.get("url")`. -/
def add_result_urls (s : List String) (results : List SearchResult) : List String :=
  results.foldl
    (fun s r =>
      match r.url with
      | some u => if u ≠ "" then setAdd s u else s
      | none => s)
    s

/-- `_collect_urls_from_web_search` (lines 259-284): the three enhanced
provider lists, the production list, then every additional-query result
list (skipped when absent or empty). -/
def collect_urls_from_web_search (w : WebSearchData) (s : List String) : List String :=
  w.additional_queries_results.foldl
    (fun s q =>
      match q.2 with
      | .ok rs => if rs.isEmpty then s else add_result_urls s rs
      | .error _ => s)
    (add_result_urls
      (add_result_urls (add_result_urls (add_result_urls s (enhanced_exa w)) (enhanced_google w))
        (enhanced_other w))
      (production_results_of w))

/-- `_collect_urls_from_social_data` (lines 286-296). -/
def collect_urls_from_social (sd : SocialData) (s : List String) : List String :=
  match sd.all_platforms_data with
  | none => s
  | some pr =>
    pr.platforms.foldl
      (fun s p =>
        if p.2.results.isEmpty then s
        else
          p.2.results.foldl
            (fun s post =>
              match post.url with
              | some u => if u ≠ "" then setAdd s u else s
              | none => s)
            s)
      s

/-- `_collect_urls_from_deep_navigation` (lines 298-309). -/
def collect_urls_from_deep (dd : DeepData) (s : List String) : List String :=
  match dd.websailor_navigation with
  | none => s
  | some ws =>
    match ws.conteudo_consolidado with
    | none => s
    | some cc =>
      cc.fontes_detalhadas.foldl
        (fun s f =>
          match f.url with
          | some u => if u ≠ "" then setAdd s u else s
          | none => s)
        s

/-- One extracted-content record (lines 248-254). -/
structure ExtractedItem where
  url : String
  content : String
  length : Nat
  extracted_at : String
  extraction_method : String
deriving DecidableEq

/-- `_extract_single_url_content` (lines 243-257): `None` on a raised
exception, a falsy return, or content of at most 500 characters
(`if content and len(content) > 500`); nothing is surfaced as an error. -/
def extract_single_url_content (c : Collaborators) (url : String) (now : String) :
    Option ExtractedItem :=
  match c.extract_content url with
  | .error _ => none
  | .ok none => none
  | .ok (some content) =>
    if content ≠ "" ∧ 500 < content.length then
      some ⟨url, content, content.length, now, "content_extractor"⟩
    else none

/-- `_execute_massive_content_extraction` (lines 211-241): dedup all URLs,
cap at 100, extract each, keep truthy results.  Thread-pool completion
order and CPython set iteration order are nondeterministic; the model uses
first-seen order, on which no claim depends. -/
def execute_massive_content_extraction (c : Collaborators) (w : WebSearchData) (sd : SocialData)
    (dd : DeepData) (now : String) : List ExtractedItem :=
  ((collect_urls_from_deep dd (collect_urls_from_social sd (collect_urls_from_web_search w []))).take
      100).foldl
    (fun acc url =>
      match extract_single_url_content c url now with
      | some item => if item.content ≠ "" then acc ++ [item] else acc
      | none => acc)
    []

/-! ## `massive_data_collector.py`: orchestrator -/

/-- The `statistics` dict (`sources_by_type` flattened into named
fields). -/
structure CollectionStatistics where
  total_sources : Nat
  total_content_length : Nat
  collection_time : ℚ
  web_search_sources : Nat
  social_media_sources : Nat
  deep_navigation_sources : Nat
  extracted_content_sources : Nat
deriving DecidableEq

def web_sources_count (w : WebSearchData) : Nat :=
  (enhanced_exa w).length + (enhanced_google w).length + (enhanced_other w).length +
    (production_results_of w).length

def social_sources_count (sd : SocialData) : Nat :=
  match sd.all_platforms_data with
  | none => 0
  | some pr => pr.platforms.foldl (fun a p => a + p.2.results.length) 0

def deep_sources_count (dd : DeepData) : Nat :=
  match dd.websailor_navigation with
  | none => 0
  | some ws =>
    match ws.conteudo_consolidado with
    | none => 0
    | some cc => cc.fontes_detalhadas.length

/-- `_calculate_final_statistics` (lines 470-518). -/
def calculate_final_statistics (w : WebSearchData) (sd : SocialData) (dd : DeepData)
    (extracted : List ExtractedItem) (collection_time : ℚ) : CollectionStatistics :=
  { total_sources :=
      web_sources_count w + social_sources_count sd + deep_sources_count dd + extracted.length
    total_content_length := extracted.foldl (fun a i => a + i.length) 0
    collection_time := collection_time
    web_search_sources := web_sources_count w
    social_media_sources := social_sources_count sd
    deep_navigation_sources := deep_sources_count dd
    extracted_content_sources := extracted.length }

/-- The collection record (`massive_data`), metadata timestamps threaded as
arguments. -/
structure MassiveData where
  session_id : String
  query : String
  context : Context
  collection_started : String
  collection_completed : String
  web_search_data : WebSearchData
  social_media_data : SocialData
  deep_navigation_data : DeepData
  extracted_content : List ExtractedItem
  statistics : CollectionStatistics

/-- `execute_massive_collection` (lines 36-99): the four phases run in
sequence, each catching its own collaborator failures, then the statistics
are computed; `_save_massive_json` catches its own errors and does not
alter the returned record, so the function is total — no collaborator
behaviour makes the pipeline itself raise. -/
def execute_massive_collection (c : Collaborators) (query : String) (context : Context)
    (session_id : String) (started completed extracted_at : String) (collection_time : ℚ) :
    MassiveData :=
  { session_id := session_id
    query := query
    context := context
    collection_started := started
    collection_completed := completed
    web_search_data := execute_massive_web_search c query context session_id
    social_media_data := execute_massive_social_collection c query context session_id
    deep_navigation_data := execute_deep_navigation c query context session_id
    extracted_content :=
      execute_massive_content_extraction c
        (execute_massive_web_search c query context session_id)
        (execute_massive_social_collection c query context session_id)
        (execute_deep_navigation c query context session_id)
        extracted_at
    statistics :=
      calculate_final_statistics
        (execute_massive_web_search c query context session_id)
        (execute_massive_social_collection c query context session_id)
        (execute_deep_navigation c query context session_id)
        (execute_massive_content_extraction c
          (execute_massive_web_search c query context session_id)
          (execute_massive_social_collection c query context session_id)
          (execute_deep_navigation c query context session_id)
          extracted_at)
        collection_time }

/-! ## `visual_content_capture.py`: engagement ranking -/

/-- The per-platform results view the capture reads:
`social_media_data.get(platform_name, {}).get('results', [])`. -/
abbrev SocialMap := String → List Post

/-- The fixed platform list of `_identify_viral_posts` (line 292). -/
def known_platforms : List String := ["youtube", "twitter", "instagram", "linkedin"]

/-- `_calculate_engagement_score` (lines 330-359); any platform outside the
four known ones falls through to `return 0`. -/
def calculate_engagement_score (post : Post) (platform : String) : ℚ :=
  if platform = "youtube" then
    ((post.like_count.getD 0 : ℚ) * 2 + (post.comment_count.getD 0 : ℚ) * 3) /
      ((max (post.view_count.getD 0) 1 : Nat) : ℚ) * 1000
  else if platform = "twitter" then
    (post.like_count.getD 0 : ℚ) + (post.retweet_count.getD 0 : ℚ) * 3 +
      (post.reply_count.getD 0 : ℚ) * 2
  else if platform = "instagram" then
    (post.like_count.getD 0 : ℚ) + (post.comment_count.getD 0 : ℚ) * 5
  else if platform = "linkedin" then
    (post.likes.getD 0 : ℚ) + (post.comments.getD 0 : ℚ) * 3 + (post.shares.getD 0 : ℚ) * 5
  else 0

/-- The `post_data` dict built per scored post (lines 304-312). -/
structure ViralPost where
  url : String
  platform : String
  engagement_score : ℚ
  title : String
  views : Nat
  likes : Nat
  shares : Nat
deriving DecidableEq

def viral_post_of (post : Post) (platform : String) (score : ℚ) : ViralPost :=
  { url := post.url.getD ""
    platform := platform
    engagement_score := score
    title := ((post.title <|> post.text <|> post.caption)).getD ""
    views := (post.view_count <|> post.like_count).getD 0
    likes := post.like_count.getD 0
    shares := (post.retweet_count <|> post.shares).getD 0 }

/-- The scored-post list of one platform (lines 300-313): posts with a
positive engagement score, in post order. -/
def scored_posts_for (smd : SocialMap) (platform : String) : List ViralPost :=
  (smd platform).foldl
    (fun acc post =>
      if 0 < calculate_engagement_score post platform then
        acc ++ [viral_post_of post platform (calculate_engagement_score post platform)]
      else acc)
    []

/-- `_identify_viral_posts` (lines 286-328): per platform in the fixed
order, sort the scored posts descending (stable) and keep 3; pool, re-sort
descending (stable), keep 10. -/
def identify_viral_posts (smd : SocialMap) : List ViralPost :=
  (sortDescBy (fun v => v.engagement_score)
    (known_platforms.foldl
      (fun acc platform =>
        if (smd platform).isEmpty then acc
        else
          acc ++
            (sortDescBy (fun v => v.engagement_score) (scored_posts_for smd platform)).take 3)
      [])).take 10

/-- C8's reference selection, written from the spec's words: take the top-3
posts per platform by engagement score, pool all platforms' selections,
re-sort the pool globally by score descending, truncate to the top-10, with
ties broken stably on insertion order (first-seen wins). -/
def spec_viral_selection (smd : SocialMap) : List ViralPost :=
  (sortDescBy (fun v => v.engagement_score)
    (List.flatten (known_platforms.map (fun platform =>
      (sortDescBy (fun v => v.engagement_score) (scored_posts_for smd platform)).take 3)))).take 10

/-! ## Set-model lemmas for the URL deduplicator -/

lemma mem_setAdd_iff (s : List String) (u v : String) : v ∈ setAdd s u ↔ v ∈ s ∨ v = u := by
  unfold setAdd
  by_cases h : u ∈ s
  · simp only [h, if_true]
    constructor
    · exact Or.inl
    · rintro (hv | rfl)
      · exact hv
      · exact h
  · simp [h, List.mem_append]

lemma setAdd_nodup (s : List String) (u : String) (h : s.Nodup) : (setAdd s u).Nodup := by
  unfold setAdd
  by_cases hm : u ∈ s
  · simpa [hm] using h
  · rw [if_neg hm, List.nodup_append]
    refine ⟨h, List.nodup_singleton u, ?_⟩
    intro a ha hb
    rw [List.mem_singleton] at hb
    subst hb
    exact hm ha

/-- One step of the URL collectors: `if result.get("url"): all_urls.add(…)`. -/
def add_url_step (s : List String) (r : SearchResult) : List String :=
  match r.url with
  | some u => if u ≠ "" then setAdd s u else s
  | none => s

lemma mem_add_url_step (s : List String) (r : SearchResult) (v : String) :
    v ∈ add_url_step s r ↔ v ∈ s ∨ (r.url = some v ∧ v ≠ "") := by
  unfold add_url_step
  rcases hu : r.url with _ | u
  · simp
  · by_cases he : u ≠ ""
    · show (v ∈ if u ≠ "" then setAdd s u else s) ↔ v ∈ s ∨ (some u = some v ∧ v ≠ "")
      rw [if_pos he, mem_setAdd_iff]
      constructor
      · rintro (hv | rfl)
        · exact Or.inl hv
        · exact Or.inr ⟨rfl, he⟩
      · rintro (hv | ⟨hsome, -⟩)
        · exact Or.inl hv
        · exact Or.inr (Option.some.inj hsome).symm
    · push_neg at he
      subst he
      show (v ∈ if ("" : String) ≠ "" then setAdd s "" else s) ↔
        v ∈ s ∨ (some "" = some v ∧ v ≠ "")
      rw [if_neg (by simp)]
      constructor
      · exact Or.inl
      · rintro (hv | ⟨hsome, hne⟩)
        · exact hv
        · exact absurd (Option.some.inj hsome).symm hne

lemma add_url_step_nodup (s : List String) (r : SearchResult) (h : s.Nodup) :
    (add_url_step s r).Nodup := by
  unfold add_url_step
  rcases r.url with _ | u
  · exact h
  · show (if u ≠ "" then setAdd s u else s).Nodup
    by_cases he : u ≠ ""
    · rw [if_pos he]
      exact setAdd_nodup _ _ h
    · rw [if_neg he]
      exact h

lemma mem_add_result_urls : ∀ (results : List SearchResult) (s : List String) (v : String),
    v ∈ add_result_urls s results ↔ v ∈ s ∨ ∃ r ∈ results, r.url = some v ∧ v ≠ "" := by
  intro results
  induction results with
  | nil => intro s v; simp [add_result_urls]
  | cons r rest ih =>
    intro s v
    have hstep : add_result_urls s (r :: rest) = add_result_urls (add_url_step s r) rest := rfl
    rw [hstep, ih, mem_add_url_step]
    constructor
    · rintro ((hv | hr) | ⟨r', hr', hu⟩)
      · exact Or.inl hv
      · exact Or.inr ⟨r, List.mem_cons_self r rest, hr⟩
      · exact Or.inr ⟨r', List.mem_cons_of_mem r hr', hu⟩
    · rintro (hv | ⟨r', hr', hu⟩)
      · exact Or.inl (Or.inl hv)
      · rcases List.mem_cons.mp hr' with rfl | hr'
        · exact Or.inl (Or.inr hu)
        · exact Or.inr ⟨r', hr', hu⟩

lemma add_result_urls_nodup : ∀ (results : List SearchResult) (s : List String),
    s.Nodup → (add_result_urls s results).Nodup := by
  intro results
  induction results with
  | nil => intro s h; exact h
  | cons r rest ih =>
    intro s h
    exact ih _ (add_url_step_nodup s r h)

lemma additional_fold_mono (l : List (String × Except String (List SearchResult))) :
    ∀ (s : List String) (v : String), v ∈ s →
      v ∈ l.foldl
        (fun s q =>
          match q.2 with
          | .ok rs => if rs.isEmpty then s else add_result_urls s rs
          | .error _ => s)
        s := by
  induction l with
  | nil => intro s v hv; exact hv
  | cons q t ih =>
    intro s v hv
    simp only [List.foldl_cons]
    apply ih
    rcases q.2 with _ | rs
    · exact hv
    · show v ∈ if rs.isEmpty then s else add_result_urls s rs
      by_cases hrs : rs.isEmpty
      · rwa [if_pos hrs]
      · rw [if_neg hrs]
        exact (mem_add_result_urls rs s v).mpr (Or.inl hv)

lemma additional_fold_nodup (l : List (String × Except String (List SearchResult))) :
    ∀ (s : List String), s.Nodup →
      (l.foldl
        (fun s q =>
          match q.2 with
          | .ok rs => if rs.isEmpty then s else add_result_urls s rs
          | .error _ => s)
        s).Nodup := by
  induction l with
  | nil => intro s h; exact h
  | cons q t ih =>
    intro s h
    simp only [List.foldl_cons]
    apply ih
    rcases q.2 with _ | rs
    · exact h
    · show (if rs.isEmpty then s else add_result_urls s rs).Nodup
      by_cases hrs : rs.isEmpty
      · rwa [if_pos hrs]
      · rw [if_neg hrs]
        exact add_result_urls_nodup rs s h

lemma collect_urls_from_web_search_nodup (w : WebSearchData) (s : List String) (h : s.Nodup) :
    (collect_urls_from_web_search w s).Nodup := by
  unfold collect_urls_from_web_search
  exact additional_fold_nodup _ _
    (add_result_urls_nodup _ _
      (add_result_urls_nodup _ _ (add_result_urls_nodup _ _ (add_result_urls_nodup _ _ h))))

/-! ## C5 -/

/-- Following the spec's words for the dedup contract: the uniqueness key
is "the normalized URL" and two candidates overlap when they have the "same
normalized form".  The spec names no concrete normalization; the scheme and
host of a URL are case-insensitive, so any URL normalization identifies the
case variants compared here, which ASCII lowercasing captures. -/
def spec_normalize_url (u : String) : String := pyLower u

/-- Candidate lists from two different adapters (the enhanced-search
coordinator and the production search manager) holding the same URL up to
letter case of the host. -/
def web_data_c5 : WebSearchData :=
  { enhanced_search_results := .ok ⟨[⟨some "https://Example.com/artigo"⟩], [], []⟩
    production_search_results := .ok [⟨some "https://example.com/artigo"⟩]
    additional_queries_results := [] }

/-- C5 is refuted as stated: the code keys its dedup set on the exact URL
string (`all_urls.add(result["url"])`, no normalization), so two candidates
of the same normalized form but different raw strings both enter the
deduplicated set — it holds the overlapping URL twice, not exactly once
(and, the set being bare strings, no adapter provenance is retained at
all). -/
theorem c5_counterexample :
    spec_normalize_url "https://Example.com/artigo" =
        spec_normalize_url "https://example.com/artigo" ∧
    ("https://Example.com/artigo" : String) ≠ "https://example.com/artigo" ∧
    ((collect_urls_from_web_search web_data_c5 []).filter
        (fun x => decide (spec_normalize_url x = spec_normalize_url "https://Example.com/artigo"))).length
      = 2 :=
  ⟨by decide, by decide, by decide⟩

/-- C5 (amended): when two adapters' candidate lists contain the same URL
as an identical raw string, the deduplicated candidate set used for content
extraction contains that URL exactly once; the uniqueness key is the exact
URL string (no normalization is applied), and the set retains no adapter
provenance — it holds bare URL strings. -/
theorem c5_amended_dedup_exact_url (w : WebSearchData) (u : String)
    (h1 : ∃ r ∈ enhanced_exa w, r.url = some u ∧ u ≠ "")
    (_h2 : ∃ r ∈ production_results_of w, r.url = some u ∧ u ≠ "") :
    List.count u (collect_urls_from_web_search w []) = 1 := by
  have hmem : u ∈ collect_urls_from_web_search w [] := by
    unfold collect_urls_from_web_search
    apply additional_fold_mono
    apply (mem_add_result_urls ..).mpr (Or.inl _)
    apply (mem_add_result_urls ..).mpr (Or.inl _)
    apply (mem_add_result_urls ..).mpr (Or.inl _)
    exact (mem_add_result_urls ..).mpr (Or.inr h1)
  exact List.count_eq_one_of_mem (collect_urls_from_web_search_nodup w [] List.nodup_nil) hmem

/-- The same URL string surfaced by both adapters. -/
def web_data_c5_witness : WebSearchData :=
  { enhanced_search_results := .ok ⟨[⟨some "https://example.com/artigo"⟩], [], []⟩
    production_search_results := .ok [⟨some "https://example.com/artigo"⟩]
    additional_queries_results := [] }

theorem c5_amended_dedup_exact_url_witness :
    (∃ r ∈ enhanced_exa web_data_c5_witness, r.url = some "https://example.com/artigo" ∧
      ("https://example.com/artigo" : String) ≠ "") ∧
    (∃ r ∈ production_results_of web_data_c5_witness,
      r.url = some "https://example.com/artigo" ∧ ("https://example.com/artigo" : String) ≠ "") ∧
    List.count "https://example.com/artigo" (collect_urls_from_web_search web_data_c5_witness []) = 1 :=
  ⟨⟨⟨some "https://example.com/artigo"⟩, by decide, rfl, by decide⟩,
   ⟨⟨some "https://example.com/artigo"⟩, by decide, rfl, by decide⟩,
   c5_amended_dedup_exact_url web_data_c5_witness "https://example.com/artigo"
     ⟨⟨some "https://example.com/artigo"⟩, by decide, rfl, by decide⟩
     ⟨⟨some "https://example.com/artigo"⟩, by decide, rfl, by decide⟩⟩

/-! ## C6 -/

/-- C6: if the social-media collection raises, `execute_massive_collection`
still returns a record carrying the successful web-search and
deep-navigation data together with the explicit error marker in the social
field (whose other sub-fields stay empty, contributing zero social
sources); the pipeline itself never raises — every collaborator call site
is guarded, which the totality of the embedding witnesses. -/
theorem c6_social_failure_keeps_record (c : Collaborators) (query : String) (context : Context)
    (session_id started completed extracted_at : String) (collection_time : ℚ)
    (msg : String) (m : MainResults) (ws : WebsailorResults)
    (hsoc : c.search_all_platforms query 25 = .error msg)
    (hweb : c.enhanced_search query context session_id = .ok m)
    (hnav : c.websailor_navigate query context 50 4 session_id = .ok ws) :
    (execute_massive_collection c query context session_id started completed extracted_at
        collection_time).social_media_data.error = some msg ∧
    (execute_massive_collection c query context session_id started completed extracted_at
        collection_time).social_media_data.all_platforms_data = none ∧
    (execute_massive_collection c query context session_id started completed extracted_at
        collection_time).web_search_data.enhanced_search_results = .ok m ∧
    (execute_massive_collection c query context session_id started completed extracted_at
        collection_time).deep_navigation_data.websailor_navigation = some ws ∧
    (execute_massive_collection c query context session_id started completed extracted_at
        collection_time).statistics.social_media_sources = 0 := by
  have hsd : execute_massive_social_collection c query context session_id =
      ⟨none, none, none, none, some msg⟩ := by
    unfold execute_massive_social_collection
    rw [hsoc]
  have hdd : (execute_deep_navigation c query context session_id).websailor_navigation =
      some ws := by
    unfold execute_deep_navigation
    rw [hnav]
    rcases hcc : ws.conteudo_consolidado with _ | cc <;> simp [hcc]
  refine ⟨?_, ?_, ?_, ?_, ?_⟩
  · show (execute_massive_social_collection c query context session_id).error = some msg
    rw [hsd]
  · show (execute_massive_social_collection c query context session_id).all_platforms_data = none
    rw [hsd]
  · show (execute_massive_web_search c query context session_id).enhanced_search_results = .ok m
    unfold execute_massive_web_search
    exact hweb
  · exact hdd
  · show (calculate_final_statistics _ (execute_massive_social_collection c query context session_id)
      _ _ _).social_media_sources = 0
    rw [show (calculate_final_statistics _ (execute_massive_social_collection c query context
        session_id) _ _ _).social_media_sources =
      social_sources_count (execute_massive_social_collection c query context session_id) from rfl]
    rw [hsd]
    rfl

/-- Collaborators whose social search raises while web search and deep
navigation succeed. -/
def collaborators_c6 : Collaborators :=
  { enhanced_search := fun _ _ _ => .ok ⟨[⟨some "https://fonte.example/pagina"⟩], [], []⟩
    production_search := fun _ _ => .ok []
    search_all_platforms := fun _ _ => .error "Supadata indisponível"
    analyze_sentiment_trends := fun _ => .error "nunca chamado"
    websailor_navigate := fun _ _ _ _ _ => .ok ⟨none, none⟩
    extract_content := fun _ => .ok none }

theorem c6_social_failure_keeps_record_witness :
    (execute_massive_collection collaborators_c6 "café orgânico" ⟨"", ""⟩ "s6" "t0" "t1" "t2"
        7).social_media_data.error = some "Supadata indisponível" ∧
    (execute_massive_collection collaborators_c6 "café orgânico" ⟨"", ""⟩ "s6" "t0" "t1" "t2"
        7).social_media_data.all_platforms_data = none ∧
    (execute_massive_collection collaborators_c6 "café orgânico" ⟨"", ""⟩ "s6" "t0" "t1" "t2"
        7).web_search_data.enhanced_search_results =
      .ok ⟨[⟨some "https://fonte.example/pagina"⟩], [], []⟩ ∧
    (execute_massive_collection collaborators_c6 "café orgânico" ⟨"", ""⟩ "s6" "t0" "t1" "t2"
        7).deep_navigation_data.websailor_navigation = some ⟨none, none⟩ ∧
    (execute_massive_collection collaborators_c6 "café orgânico" ⟨"", ""⟩ "s6" "t0" "t1" "t2"
        7).statistics.social_media_sources = 0 :=
  c6_social_failure_keeps_record collaborators_c6 "café orgânico" ⟨"", ""⟩ "s6" "t0" "t1" "t2" 7
    "Supadata indisponível" ⟨[⟨some "https://fonte.example/pagina"⟩], [], []⟩ ⟨none, none⟩
    rfl rfl rfl

/-! ## C9 -/

/-- Content of exactly 500 characters. -/
def content_500 : String := ⟨List.replicate 500 'c'⟩

/-- Collaborators whose content extractor always returns `content_500`. -/
def collaborators_c9 : Collaborators :=
  { enhanced_search := fun _ _ _ => .error "offline"
    production_search := fun _ _ => .error "offline"
    search_all_platforms := fun _ _ => .error "offline"
    analyze_sentiment_trends := fun _ => .error "offline"
    websailor_navigate := fun _ _ _ _ _ => .error "offline"
    extract_content := fun _ => .ok (some content_500) }

set_option maxRecDepth 8000 in
/-- C9 is refuted on the boundary: the filter is strict
(`len(content) > 500`), so successfully extracted content of exactly 500
characters is discarded (silently, as `None`), while the claim says it is
retained. -/
theorem c9_counterexample :
    content_500.length = 500 ∧
    extract_single_url_content collaborators_c9 "https://exemplo.com/pagina" "t" = none :=
  ⟨by decide, by decide⟩

/-- C9 (amended): a URL's extracted content yields an extraction record iff
the extractor returns (without raising) non-`None`, non-empty content
strictly longer than 500 characters; in particular content of exactly 500
characters is discarded and 501 characters retained, and every rejection is
silent — the function totally returns `none`, surfacing no error.  The
record then carries exactly that URL and content. -/
theorem c9_amended_extraction_filter (c : Collaborators) (url now : String) :
    (∀ item, extract_single_url_content c url now = some item →
      item.url = url ∧ c.extract_content url = .ok (some item.content) ∧
        item.content ≠ "" ∧ 500 < item.content.length) ∧
    ((extract_single_url_content c url now).isSome ↔
      ∃ content, c.extract_content url = .ok (some content) ∧ content ≠ "" ∧
        500 < content.length) := by
  rcases hx : c.extract_content url with e | oc
  · have hred : extract_single_url_content c url now = none := by
      unfold extract_single_url_content
      rw [hx]
    rw [hred]
    constructor
    · intro item h
      cases h
    · simp
  · rcases oc with _ | content
    · have hred : extract_single_url_content c url now = none := by
        unfold extract_single_url_content
        rw [hx]
      rw [hred]
      constructor
      · intro item h
        cases h
      · simp
    · have hred : extract_single_url_content c url now =
          if content ≠ "" ∧ 500 < content.length then
            some ⟨url, content, content.length, now, "content_extractor"⟩
          else none := by
        unfold extract_single_url_content
        rw [hx]
      rw [hred]
      by_cases hcond : content ≠ "" ∧ 500 < content.length
      · rw [if_pos hcond]
        constructor
        · intro item h
          cases Option.some.inj h
          exact ⟨rfl, rfl, hcond.1, hcond.2⟩
        · simp only [Option.isSome_some, true_iff]
          exact ⟨content, rfl, hcond.1, hcond.2⟩
      · rw [if_neg hcond]
        constructor
        · intro item h
          cases h
        · simp only [Option.isSome_none, Bool.false_eq_true, false_iff]
          rintro ⟨content', hc', hne, hlen⟩
          cases Option.some.inj (Except.ok.inj hc')
          exact hcond ⟨hne, hlen⟩

/-! ## Ranking lemmas -/

lemma mem_insertDescBy {α β : Type} [LinearOrder β] (key : α → β) (w : α) :
    ∀ (l : List α) (v : α), v ∈ insertDescBy key w l ↔ v = w ∨ v ∈ l := by
  intro l
  induction l with
  | nil => intro v; simp [insertDescBy]
  | cons x xs ih =>
    intro v
    unfold insertDescBy
    by_cases h : key x ≤ key w
    · simp [h, List.mem_cons]
    · simp only [h, if_false, List.mem_cons, ih]
      tauto

lemma mem_sortDescBy {α β : Type} [LinearOrder β] (key : α → β) :
    ∀ (l : List α) (v : α), v ∈ sortDescBy key l ↔ v ∈ l := by
  intro l
  induction l with
  | nil => intro v; simp [sortDescBy]
  | cons x xs ih =>
    intro v
    show v ∈ insertDescBy key x (sortDescBy key xs) ↔ _
    rw [mem_insertDescBy, ih]
    simp [List.mem_cons]

/-- The pooled per-platform top-3 fold of `_identify_viral_posts`, as a
flattened map (a platform with no posts contributes nothing either way). -/
lemma pooled_eq_flatten (smd : SocialMap) :
    ∀ (l : List String) (acc : List ViralPost),
      l.foldl
        (fun acc platform =>
          if (smd platform).isEmpty then acc
          else
            acc ++
              (sortDescBy (fun v => v.engagement_score) (scored_posts_for smd platform)).take 3)
        acc
      = acc ++
          (l.map (fun platform =>
            (sortDescBy (fun v => v.engagement_score) (scored_posts_for smd platform)).take
              3)).flatten := by
  intro l
  induction l with
  | nil => intro acc; simp
  | cons p t ih =>
    intro acc
    simp only [List.foldl_cons, List.map_cons, List.flatten_cons]
    by_cases hp : (smd p).isEmpty
    · have hsc : scored_posts_for smd p = [] := by
        unfold scored_posts_for
        rw [List.isEmpty_iff.mp hp]
        rfl
      rw [if_pos hp, ih, hsc]
      simp [sortDescBy]
    · rw [if_neg hp, ih, List.append_assoc]

lemma scored_fold_mem (platform : String) :
    ∀ (posts : List Post) (acc : List ViralPost) (v : ViralPost),
      v ∈ posts.foldl
        (fun acc post =>
          if 0 < calculate_engagement_score post platform then
            acc ++ [viral_post_of post platform (calculate_engagement_score post platform)]
          else acc)
        acc →
      v ∈ acc ∨ (v.platform = platform ∧ 0 < v.engagement_score) := by
  intro posts
  induction posts with
  | nil => intro acc v hv; exact Or.inl hv
  | cons p ps ih =>
    intro acc v hv
    simp only [List.foldl_cons] at hv
    by_cases hs : 0 < calculate_engagement_score p platform
    · rw [if_pos hs] at hv
      rcases ih _ v hv with hacc | hgood
      · rcases List.mem_append.mp hacc with h | h
        · exact Or.inl h
        · rw [List.mem_singleton] at h
          subst h
          exact Or.inr ⟨rfl, hs⟩
      · exact Or.inr hgood
    · rw [if_neg hs] at hv
      exact ih _ v hv

/-! ## C7 -/

/-- C7: the engagement score equals the per-platform formula — youtube
`(likes*2 + comments*3) / max(views,1) * 1000`, twitter
`likes + retweets*3 + replies*2`, instagram `likes + comments*5`, linkedin
`likes + comments*3 + shares*5` — any other platform scores 0 (the
function is total, so scoring never errors), and no unknown-platform or
zero-score post ever enters the viral ranking. -/
theorem c7_engagement_score_formulas (post : Post) (platform : String) (smd : SocialMap)
    (v : ViralPost) :
    calculate_engagement_score post "youtube" =
      ((post.like_count.getD 0 : ℚ) * 2 + (post.comment_count.getD 0 : ℚ) * 3) /
        ((max (post.view_count.getD 0) 1 : Nat) : ℚ) * 1000 ∧
    calculate_engagement_score post "twitter" =
      (post.like_count.getD 0 : ℚ) + (post.retweet_count.getD 0 : ℚ) * 3 +
        (post.reply_count.getD 0 : ℚ) * 2 ∧
    calculate_engagement_score post "instagram" =
      (post.like_count.getD 0 : ℚ) + (post.comment_count.getD 0 : ℚ) * 5 ∧
    calculate_engagement_score post "linkedin" =
      (post.likes.getD 0 : ℚ) + (post.comments.getD 0 : ℚ) * 3 + (post.shares.getD 0 : ℚ) * 5 ∧
    (platform ∉ known_platforms → calculate_engagement_score post platform = 0) ∧
    (v ∈ identify_viral_posts smd → v.platform ∈ known_platforms ∧ 0 < v.engagement_score) := by
  refine ⟨?_, ?_, ?_, ?_, ?_, ?_⟩
  · rw [calculate_engagement_score, if_pos rfl]
  · rw [calculate_engagement_score, if_neg (by decide), if_pos rfl]
  · rw [calculate_engagement_score, if_neg (by decide), if_neg (by decide), if_pos rfl]
  · rw [calculate_engagement_score, if_neg (by decide), if_neg (by decide), if_neg (by decide),
      if_pos rfl]
  · intro hout
    simp only [known_platforms, List.mem_cons, List.mem_singleton, not_or] at hout
    obtain ⟨h1, h2, h3, h4, -⟩ := hout
    rw [calculate_engagement_score, if_neg h1, if_neg h2, if_neg h3, if_neg h4]
  · intro hv
    unfold identify_viral_posts at hv
    have hv' := (mem_sortDescBy _ _ _).mp (List.mem_of_mem_take hv)
    rw [pooled_eq_flatten, List.nil_append] at hv'
    obtain ⟨lst, hlst, hvl⟩ := List.mem_flatten.mp hv'
    obtain ⟨platform', hplat, rfl⟩ := List.mem_map.mp hlst
    have hv'' := (mem_sortDescBy _ _ _).mp (List.mem_of_mem_take hvl)
    unfold scored_posts_for at hv''
    rcases scored_fold_mem platform' _ _ v hv'' with h | h
    · cases h
    · exact ⟨h.1 ▸ hplat, h.2⟩

/-- A twitter post with 7 likes, 1 retweet and 2 replies (score 14). -/
def post_twitter_example : Post :=
  { url := some "https://twitter.example/post/1"
    title := none
    text := some "post de exemplo"
    caption := none
    content := none
    hashtags_detected := []
    view_count := none
    like_count := some 7
    comment_count := none
    retweet_count := some 1
    reply_count := some 2
    likes := none
    comments := none
    shares := none }

/-- One twitter post, nothing on the other platforms. -/
def smd_example : SocialMap := fun p => if p = "twitter" then [post_twitter_example] else []

def viral_twitter_example : ViralPost :=
  viral_post_of post_twitter_example "twitter"
    (calculate_engagement_score post_twitter_example "twitter")

lemma identify_viral_posts_smd_example :
    identify_viral_posts smd_example = [viral_twitter_example] := by
  have hscore : (0 : ℚ) < calculate_engagement_score post_twitter_example "twitter" := by
    rw [calculate_engagement_score, if_neg (by decide), if_pos rfl]
    norm_num [post_twitter_example]
  unfold identify_viral_posts known_platforms smd_example
  simp only [List.foldl_cons, List.foldl_nil]
  norm_num [scored_posts_for, smd_example, hscore, sortDescBy, insertDescBy,
    viral_twitter_example, List.take]

theorem c7_engagement_score_formulas_witness :
    (("tiktok" : String) ∉ known_platforms ∧
      calculate_engagement_score post_twitter_example "tiktok" = 0) ∧
    (viral_twitter_example ∈ identify_viral_posts smd_example ∧
      viral_twitter_example.platform ∈ known_platforms ∧
      0 < viral_twitter_example.engagement_score) :=
  ⟨⟨by decide,
    (c7_engagement_score_formulas post_twitter_example "tiktok" smd_example
        viral_twitter_example).2.2.2.2.1 (by decide)⟩,
   ⟨by rw [identify_viral_posts_smd_example]; exact List.mem_singleton.mpr rfl,
    (c7_engagement_score_formulas post_twitter_example "tiktok" smd_example
        viral_twitter_example).2.2.2.2.2
      (by rw [identify_viral_posts_smd_example]; exact List.mem_singleton.mpr rfl)⟩⟩

/-! ## C8 -/

/-- C8: the viral selection of the code equals the reference algorithm the
spec states — top-3 per platform by engagement score (stable descending
sort, insertion order breaking ties), pooled in the fixed platform order,
re-sorted globally by the same stable descending sort, truncated to the
top-10.  Both sides are pure functions of the input, so repeated calls on
identical input return the same set and order. -/
theorem c8_viral_selection_matches_reference (smd : SocialMap) :
    identify_viral_posts smd = spec_viral_selection smd := by
  unfold identify_viral_posts spec_viral_selection
  rw [pooled_eq_flatten, List.nil_append]

end ARQV30
